import Mathlib

/-!
Verification development for the adaptive spatial scheduler of a
procedural-planet renderer (octree chunk manager, bounded worker pool,
frustum / horizon-occlusion culling).

Shallow embedding conventions:
* JavaScript `number` values are modelled as `ℚ` (the code never relies on
  float rounding in the properties considered here); `Infinity` used as the
  initial `distanceToCamera` is modelled by `Option ℚ` with `none = ∞`.
* External mathematical kernels that the scheduler only consumes
  (`Math.sqrt`-based distances, the float trigonometry of the per-corner
  horizon test, the seeded noise density field) are passed in as function
  parameters ("oracles"); everything the scheduler itself computes from
  their results is translated literally from the source.
* JS object-identity sets (`pendingNodes`) are modelled by `Finset` of a
  structural node key (center, level), which identifies octree cells.
-/

/-- `NodeState` from octree-node.ts. -/
inductive NodeState where
  | EMPTY
  | GENERATING
  | READY
  | SUBDIVIDED
  | CULLED
deriving DecidableEq, Repr

/-- `CullState` from octree-node.ts. -/
inductive CullState where
  | UNKNOWN
  | INSIDE
  | OUTSIDE
  | INTERSECTS
  | GEOMETRY_TESTED
deriving DecidableEq, Repr

/-- `FrustumResult` from frustum-culling.ts (OUTSIDE = 0, INTERSECTS = 1, INSIDE = 2). -/
inductive FrustumResult where
  | OUTSIDE
  | INTERSECTS
  | INSIDE
deriving DecidableEq, Repr, Fintype

/-- `ChunkState` of chunk.ts (a string union in the source). -/
inductive ChunkState where
  | empty
  | generating
  | ready
  | error
deriving DecidableEq, Repr

/-- The scheduler-relevant part of a `Chunk` payload (chunk.ts): mesh buffers
are abstracted to the `isEmpty` flag the scheduler branches on. -/
structure Chunk where
  isEmpty : Bool := false
  state : ChunkState := ChunkState.empty
deriving DecidableEq, Repr

namespace WorkerManager

/-- The queue-relevant fields of a `WorkerTask` (worker-manager.ts).
`nodeId` abstracts the string key built from origin and LOD level;
`distanceToCamera` is the value produced by the float `Math.sqrt` distance
computation, supplied by the caller. -/
structure WorkerTask where
  nodeId : ℕ
  lodLevel : ℕ
  isoLevelBias : ℚ := 0
  priority : ℚ
  timestamp : ℚ
  isVisible : Bool
  distanceToCamera : ℚ
deriving DecidableEq, Repr

/-- `WorkerManager.SOFT_QUEUE_LIMIT`. -/
def SOFT_QUEUE_LIMIT : ℕ := 80

/-- `WorkerManager.HARD_QUEUE_LIMIT`. -/
def HARD_QUEUE_LIMIT : ℕ := 120

/-- `WorkerManager.VISIBLE_PRIORITY_BASE`. -/
def VISIBLE_PRIORITY_BASE : ℚ := 1000000

/-- `WorkerManager.NON_VISIBLE_PRIORITY_BASE`. -/
def NON_VISIBLE_PRIORITY_BASE : ℚ := 10000

/-- `ChunkConfigManager.setNumLODLevels` clamps the number of LOD levels the
configuration admits to the range 1..10 (chunk-config.ts). -/
def clampNumLODLevels (n : ℕ) : ℕ := max 1 (min n 10)

/-- `WorkerManager.calculatePriority(lodLevel, originX, originY, originZ,
isVisible, distanceToCamera)` (worker-manager.ts).  The origin components are
unused by the source body and are omitted here. -/
def calculatePriority (lodLevel : ℕ) (isVisible : Bool) (distanceToCamera : ℚ) : ℚ :=
  let lodPriorityMultiplier : ℚ := (10 : ℚ) ^ lodLevel
  let distancePenalty : ℚ := min (distanceToCamera * (1/10)) 50000
  if isVisible then
    if lodLevel = 0 then
      VISIBLE_PRIORITY_BASE + 500000 - distancePenalty
    else
      VISIBLE_PRIORITY_BASE + lodPriorityMultiplier * 1000 - distancePenalty
  else
    if lodLevel = 0 then
      NON_VISIBLE_PRIORITY_BASE + 5000 - distancePenalty
    else
      NON_VISIBLE_PRIORITY_BASE + lodPriorityMultiplier * 10 - distancePenalty

/-- Remove the first element of a list satisfying `p`, returning it and the
remaining list (models `Array.prototype.splice` at a `findIndex` result). -/
def removeFirstP {α : Type} (p : α → Bool) : List α → Option (α × List α)
  | [] => none
  | x :: xs =>
    if p x then some (x, xs)
    else (removeFirstP p xs).map (fun r => (r.1, x :: r.2))

/-- Outcome of `smartEviction` / `insertTaskByPriority`: whether the incoming
task was admitted, the resulting queue, and the task evicted (if any). -/
structure QueueOutcome where
  accepted : Bool
  queue : List WorkerTask
  evicted : Option WorkerTask
deriving DecidableEq, Repr

/-- The eviction-candidate scan of `WorkerManager.smartEviction`: the first
pass finds the first non-visible task of minimal priority; if every queued
task is visible, the second pass finds the first task of minimal priority.
Returns the minimal priority together with the candidate and the queue with
the candidate spliced out. -/
def evictionCandidate (q : List WorkerTask) : Option (ℚ × WorkerTask × List WorkerTask) :=
  match ((q.filter (fun t => !t.isVisible)).map (fun t => t.priority)).min? with
  | some m => (removeFirstP (fun t => !t.isVisible && decide (t.priority = m)) q).map (fun r => (m, r))
  | none =>
    match (q.map (fun t => t.priority)).min? with
    | some m => (removeFirstP (fun t => decide (t.priority = m)) q).map (fun r => (m, r))
    | none => none

/-- `WorkerManager.smartEviction(newTask)` (worker-manager.ts): at the hard
queue limit, evict the candidate only when the incoming task has strictly
higher priority; otherwise refuse the insertion.  Below the limit the queue
is untouched and the insertion is allowed. -/
def smartEviction (q : List WorkerTask) (newTask : WorkerTask) : QueueOutcome :=
  if HARD_QUEUE_LIMIT ≤ q.length then
    match evictionCandidate q with
    | some (m, e, rest) =>
      if m < newTask.priority then ⟨true, rest, some e⟩ else ⟨false, q, none⟩
    | none => ⟨false, q, none⟩
  else ⟨true, q, none⟩

/-- The priority-ordered insertion loop of `insertTaskByPriority` (insert
before the first queued task of strictly smaller priority). -/
def insertTaskSorted : List WorkerTask → WorkerTask → List WorkerTask
  | [], t => [t]
  | x :: xs, t =>
    if x.priority < t.priority then t :: x :: xs else x :: insertTaskSorted xs t

/-- `WorkerManager.insertTaskByPriority(task)` (worker-manager.ts): node-id
deduplication (replace only a strictly lower-priority queued task, else drop
the new one), then smart eviction, then sorted insertion. -/
def insertTaskByPriority (q : List WorkerTask) (task : WorkerTask) : QueueOutcome :=
  match removeFirstP (fun t => decide (t.nodeId = task.nodeId)) q with
  | some (existing, rest) =>
    if existing.priority < task.priority then
      let ev := smartEviction rest task
      if ev.accepted then ⟨true, insertTaskSorted ev.queue task, ev.evicted⟩
      else ⟨false, ev.queue, ev.evicted⟩
    else ⟨false, q, none⟩
  | none =>
    let ev := smartEviction q task
    if ev.accepted then ⟨true, insertTaskSorted ev.queue task, ev.evicted⟩
    else ⟨false, ev.queue, ev.evicted⟩

/-- Queue-side effect of `WorkerManager.generateChunk` (worker-manager.ts):
soft-limit admission control, then deduplicated priority insertion.
`distanceToCamera` is the externally computed float distance. -/
def generateChunk (q : List WorkerTask) (nodeId lodLevel : ℕ) (isVisible : Bool)
    (distanceToCamera timestamp : ℚ) : QueueOutcome :=
  let priority := calculatePriority lodLevel isVisible distanceToCamera
  if SOFT_QUEUE_LIMIT < q.length ∧ isVisible = false ∧ priority < NON_VISIBLE_PRIORITY_BASE then
    ⟨false, q, none⟩
  else
    insertTaskByPriority q
      { nodeId := nodeId, lodLevel := lodLevel, priority := priority,
        timestamp := timestamp, isVisible := isVisible,
        distanceToCamera := distanceToCamera }

/-- `WorkerManager.continuousPriorityUpdate` (worker-manager.ts): drop tasks
older than 2000 ms, recompute distance (`newDist`, abstracting the float
square-root) and priority for the rest, re-sort by descending priority, and
prune low-priority non-visible tasks above the soft limit. -/
def continuousPriorityUpdate (q : List WorkerTask) (now : ℚ)
    (newDist : WorkerTask → ℚ) : List WorkerTask :=
  let q1 := q.filter (fun t => decide (now - t.timestamp ≤ 2000))
  let q2 := q1.map (fun t =>
    { t with distanceToCamera := newDist t,
             priority := calculatePriority t.lodLevel t.isVisible (newDist t) })
  let q3 := q2.mergeSort (fun a b => decide (b.priority ≤ a.priority))
  if SOFT_QUEUE_LIMIT < q3.length then
    q3.filter (fun t => t.isVisible || decide ((1000 : ℚ) < t.priority))
  else q3

/-- The operations that touch the worker task queue: a submission
(`generateChunk`), a camera update (`updateCameraPosition` →
`continuousPriorityUpdate`), and a dispatch of the head task to an idle
worker (`processNextTask`). -/
inductive WMOp where
  | submit (nodeId lodLevel : ℕ) (isVisible : Bool) (distanceToCamera timestamp : ℚ)
  | cameraUpdate (now : ℚ) (newDist : WorkerTask → ℚ)
  | dispatch

/-- One queue transition. -/
def wmStep (q : List WorkerTask) : WMOp → List WorkerTask
  | .submit n l v d ts => (generateChunk q n l v d ts).queue
  | .cameraUpdate now nd => continuousPriorityUpdate q now nd
  | .dispatch => q.tail

/-- The queue reached from the initial (empty) queue by a sequence of
operations. -/
def runOps (ops : List WMOp) : List WorkerTask := ops.foldl wmStep []

theorem removeFirstP_pred {α : Type} {p : α → Bool} {l : List α} {e : α} {r : List α}
    (h : removeFirstP p l = some (e, r)) : p e = true := by
  induction l generalizing e r with
  | nil => simp [removeFirstP] at h
  | cons x xs ih =>
    rw [removeFirstP] at h
    by_cases hx : p x
    · simp only [hx, if_pos, Option.some.injEq, Prod.mk.injEq] at h
      rw [← h.1]; exact hx
    · simp only [hx, if_neg, Bool.false_eq_true, not_false_iff, Option.map_eq_some'] at h
      obtain ⟨⟨e1, r1⟩, ha, hf⟩ := h
      obtain ⟨he, _⟩ := Prod.mk.injEq .. ▸ hf
      exact he ▸ ih ha

theorem removeFirstP_length {α : Type} {p : α → Bool} {l : List α} {e : α} {r : List α}
    (h : removeFirstP p l = some (e, r)) : r.length + 1 = l.length := by
  induction l generalizing e r with
  | nil => simp [removeFirstP] at h
  | cons x xs ih =>
    rw [removeFirstP] at h
    by_cases hx : p x
    · simp only [hx, if_pos, Option.some.injEq, Prod.mk.injEq] at h
      rw [← h.2]; simp
    · simp only [hx, if_neg, Bool.false_eq_true, not_false_iff, Option.map_eq_some'] at h
      obtain ⟨⟨e1, r1⟩, ha, hf⟩ := h
      obtain ⟨-, hr⟩ := Prod.mk.injEq .. ▸ hf
      have := ih ha
      rw [← hr]
      simp only [List.length_cons]
      omega

theorem removeFirstP_filter {α : Type} {p : α → Bool} {l : List α} {e : α} {r : List α}
    (h : removeFirstP p l = some (e, r)) : l.filter p = e :: r.filter p := by
  induction l generalizing e r with
  | nil => simp [removeFirstP] at h
  | cons x xs ih =>
    rw [removeFirstP] at h
    by_cases hx : p x
    · simp only [hx, if_pos, Option.some.injEq, Prod.mk.injEq] at h
      rw [← h.1, ← h.2, List.filter_cons_of_pos hx]
    · simp only [hx, if_neg, Bool.false_eq_true, not_false_iff, Option.map_eq_some'] at h
      obtain ⟨⟨e1, r1⟩, ha, hf⟩ := h
      obtain ⟨he, hr⟩ := Prod.mk.injEq .. ▸ hf
      rw [← hr, ← he, List.filter_cons_of_neg hx, List.filter_cons_of_neg hx]
      exact ih ha

theorem removeFirstP_of_filter_cons {α : Type} {p : α → Bool} {l : List α} {e : α}
    {fl : List α} (h : l.filter p = e :: fl) :
    ∃ r, removeFirstP p l = some (e, r) ∧ r.filter p = fl := by
  induction l generalizing fl with
  | nil => simp at h
  | cons x xs ih =>
    by_cases hx : p x
    · rw [List.filter_cons_of_pos hx] at h
      obtain ⟨rfl, rfl⟩ := List.cons.injEq .. ▸ h
      exact ⟨xs, by rw [removeFirstP]; simp [hx], rfl⟩
    · rw [List.filter_cons_of_neg hx] at h
      obtain ⟨r, hr, hfr⟩ := ih h
      refine ⟨x :: r, ?_, ?_⟩
      · rw [removeFirstP]; simp [hx, hr]
      · rw [List.filter_cons_of_neg hx]; exact hfr

theorem insertTaskSorted_eq_append (q : List WorkerTask) (t : WorkerTask) :
    ∃ l1 l2, insertTaskSorted q t = l1 ++ t :: l2 ∧ q = l1 ++ l2 := by
  induction q with
  | nil => exact ⟨[], [], rfl, rfl⟩
  | cons x xs ih =>
    rw [insertTaskSorted]
    by_cases hx : x.priority < t.priority
    · exact ⟨[], x :: xs, by simp [hx], rfl⟩
    · obtain ⟨l1, l2, h1, h2⟩ := ih
      exact ⟨x :: l1, l2, by simp [hx, h1], by simp [h2]⟩

theorem insertTaskSorted_length (q : List WorkerTask) (t : WorkerTask) :
    (insertTaskSorted q t).length = q.length + 1 := by
  obtain ⟨l1, l2, h1, h2⟩ := insertTaskSorted_eq_append q t
  rw [h1, h2]; simp; omega

theorem evictionCandidate_priority {q : List WorkerTask} {m : ℚ} {e : WorkerTask}
    {rest : List WorkerTask} (h : evictionCandidate q = some (m, e, rest)) :
    e.priority = m := by
  rw [evictionCandidate] at h
  split at h
  · rw [Option.map_eq_some'] at h
    obtain ⟨⟨e1, r1⟩, ha, hf⟩ := h
    obtain ⟨hm, he, hr⟩ : _ ∧ e1 = e ∧ r1 = rest := by simpa using hf
    subst hm; subst he
    have hp := removeFirstP_pred ha
    simp only [Bool.and_eq_true, decide_eq_true_eq] at hp
    exact hp.2
  · split at h
    · rw [Option.map_eq_some'] at h
      obtain ⟨⟨e1, r1⟩, ha, hf⟩ := h
      obtain ⟨hm, he, hr⟩ : _ ∧ e1 = e ∧ r1 = rest := by simpa using hf
      subst hm; subst he
      have hp := removeFirstP_pred ha
      simpa using hp
    · exact absurd h (by simp)

theorem evictionCandidate_length {q : List WorkerTask} {m : ℚ} {e : WorkerTask}
    {rest : List WorkerTask} (h : evictionCandidate q = some (m, e, rest)) :
    rest.length + 1 = q.length := by
  rw [evictionCandidate] at h
  split at h
  · rw [Option.map_eq_some'] at h
    obtain ⟨⟨e1, r1⟩, ha, hf⟩ := h
    obtain ⟨hm, he, hr⟩ : _ ∧ e1 = e ∧ r1 = rest := by simpa using hf
    subst hr
    exact removeFirstP_length ha
  · split at h
    · rw [Option.map_eq_some'] at h
      obtain ⟨⟨e1, r1⟩, ha, hf⟩ := h
      obtain ⟨hm, he, hr⟩ : _ ∧ e1 = e ∧ r1 = rest := by simpa using hf
      subst hr
      exact removeFirstP_length ha
    · exact absurd h (by simp)

theorem smartEviction_of_lt (q : List WorkerTask) (t : WorkerTask)
    (h : q.length < HARD_QUEUE_LIMIT) : smartEviction q t = ⟨true, q, none⟩ := by
  rw [smartEviction, if_neg]; omega

theorem smartEviction_evicted_lt {q : List WorkerTask} {t e : WorkerTask}
    (h : (smartEviction q t).evicted = some e) : e.priority < t.priority := by
  rw [smartEviction] at h
  split at h
  · split at h
    · rename_i m e1 rest heq
      split at h
      · rename_i hm
        have he : e1 = e := by simpa using h
        rw [← he, evictionCandidate_priority heq]
        exact hm
      · simp at h
    · simp at h
  · simp at h

theorem smartEviction_shape (q : List WorkerTask) (t : WorkerTask)
    (hq : q.length ≤ HARD_QUEUE_LIMIT) :
    ((smartEviction q t).accepted = true →
      (smartEviction q t).queue.length < HARD_QUEUE_LIMIT) ∧
    ((smartEviction q t).accepted = false → (smartEviction q t).queue = q) := by
  rw [smartEviction]
  split
  · rename_i hlen
    split
    · rename_i m e rest heq
      split
      · have hle := evictionCandidate_length heq
        refine ⟨fun _ => ?_, fun hcontra => by simp at hcontra⟩
        show rest.length < HARD_QUEUE_LIMIT
        omega
      · exact ⟨fun hcontra => by simp at hcontra, fun _ => rfl⟩
    · exact ⟨fun hcontra => by simp at hcontra, fun _ => rfl⟩
  · rename_i hlen
    refine ⟨fun _ => ?_, fun hcontra => by simp at hcontra⟩
    show q.length < HARD_QUEUE_LIMIT
    omega

theorem insertTaskByPriority_length {q : List WorkerTask} (t : WorkerTask)
    (hq : q.length ≤ HARD_QUEUE_LIMIT) :
    (insertTaskByPriority q t).queue.length ≤ HARD_QUEUE_LIMIT := by
  rw [insertTaskByPriority]
  split
  · rename_i ex rest hrem
    have hlen := removeFirstP_length hrem
    split
    · have hlt : rest.length < HARD_QUEUE_LIMIT := by omega
      rw [smartEviction_of_lt rest t hlt]
      show (insertTaskSorted rest t).length ≤ HARD_QUEUE_LIMIT
      rw [insertTaskSorted_length]
      omega
    · simpa using hq
  · have hsh := smartEviction_shape q t hq
    by_cases hacc : (smartEviction q t).accepted = true
    · rw [if_pos hacc]
      show (insertTaskSorted (smartEviction q t).queue t).length ≤ HARD_QUEUE_LIMIT
      rw [insertTaskSorted_length]
      have := hsh.1 hacc
      omega
    · rw [if_neg hacc]
      show (smartEviction q t).queue.length ≤ HARD_QUEUE_LIMIT
      rw [hsh.2 (by simpa using hacc)]
      exact hq

theorem continuousPriorityUpdate_length (q : List WorkerTask) (now : ℚ)
    (nd : WorkerTask → ℚ) :
    (continuousPriorityUpdate q now nd).length ≤ q.length := by
  rw [continuousPriorityUpdate]
  have h1 : (q.filter (fun t => decide (now - t.timestamp ≤ 2000))).length ≤ q.length :=
    List.length_filter_le _ _
  split
  · calc (List.filter _ _).length ≤ (List.mergeSort _ _).length := List.length_filter_le _ _
      _ = _ := by rw [List.length_mergeSort, List.length_map]
      _ ≤ q.length := h1
  · calc (List.mergeSort _ _).length = _ := by rw [List.length_mergeSort, List.length_map]
      _ ≤ q.length := h1

theorem wmStep_length {q : List WorkerTask} (op : WMOp)
    (hq : q.length ≤ HARD_QUEUE_LIMIT) : (wmStep q op).length ≤ HARD_QUEUE_LIMIT := by
  cases op with
  | submit n l v d ts =>
    rw [wmStep, generateChunk]
    split
    · exact hq
    · exact insertTaskByPriority_length _ hq
  | cameraUpdate now nd =>
    calc (wmStep q (.cameraUpdate now nd)).length ≤ q.length :=
          continuousPriorityUpdate_length q now nd
      _ ≤ HARD_QUEUE_LIMIT := hq
  | dispatch =>
    calc q.tail.length ≤ q.length := by cases q <;> simp
      _ ≤ HARD_QUEUE_LIMIT := hq

theorem runOps_aux (ops : List WMOp) :
    ∀ q : List WorkerTask, q.length ≤ HARD_QUEUE_LIMIT →
      (ops.foldl wmStep q).length ≤ HARD_QUEUE_LIMIT := by
  induction ops with
  | nil => intro q hq; exact hq
  | cons op rest ih =>
    intro q hq
    exact ih (wmStep q op) (wmStep_length op hq)

/-- C3 (counterexample): with a configuration of 7 LOD levels — admitted by
`setNumLODLevels`, which clamps to 1..10 — a non-visible level-6 task at
distance 0 outranks a visible level-1 task at distance 500000, so
`calculatePriority` does not put every visible task strictly above every
non-visible task over all admitted levels and non-negative distances. -/
theorem C3_counterexample :
    1 < clampNumLODLevels 7 ∧ 6 < clampNumLODLevels 7 ∧
    (0 : ℚ) ≤ 500000 ∧ (0 : ℚ) ≤ 0 ∧
    ¬ (calculatePriority 6 false 0 < calculatePriority 1 true 500000) := by
  refine ⟨by decide, by decide, by norm_num, le_refl 0, ?_⟩
  norm_num [calculatePriority, VISIBLE_PRIORITY_BASE, NON_VISIBLE_PRIORITY_BASE]

/-- C3 (amended): for configurations with at most 5 LOD levels (the default
configuration; levels 0..4), `WorkerManager.calculatePriority` gives every
visible task a strictly higher priority than every non-visible task, over
all admitted levels and all non-negative camera distances. -/
theorem C3_visible_band_amended (Lv Ln : ℕ) (dv dn : ℚ)
    (hLv : Lv ≤ 4) (hLn : Ln ≤ 4) (hdv : 0 ≤ dv) (hdn : 0 ≤ dn) :
    calculatePriority Ln false dn < calculatePriority Lv true dv := by
  have hpenv : min (dv * (1/10)) 50000 ≤ (50000 : ℚ) := min_le_right _ _
  have hpenn : (0 : ℚ) ≤ min (dn * (1/10)) 50000 :=
    le_min (mul_nonneg hdn (by norm_num)) (by norm_num)
  have hv : (960000 : ℚ) ≤ calculatePriority Lv true dv := by
    by_cases h0 : Lv = 0
    · subst h0
      simp only [calculatePriority, VISIBLE_PRIORITY_BASE, if_pos rfl, if_true]
      linarith
    · have hge : (10 : ℚ) ≤ (10 : ℚ) ^ Lv := by
        calc (10 : ℚ) = 10 ^ 1 := (pow_one 10).symm
          _ ≤ 10 ^ Lv := pow_le_pow_right₀ (by norm_num) (Nat.one_le_iff_ne_zero.mpr h0)
      simp only [calculatePriority, VISIBLE_PRIORITY_BASE, if_pos rfl, if_true, if_neg h0]
      linarith
  have hn : calculatePriority Ln false dn ≤ (110000 : ℚ) := by
    by_cases h0 : Ln = 0
    · subst h0
      simp only [calculatePriority, NON_VISIBLE_PRIORITY_BASE,
        if_neg Bool.false_ne_true, if_pos rfl, if_true]
      linarith
    · have hle : (10 : ℚ) ^ Ln ≤ (10 : ℚ) ^ 4 :=
        pow_le_pow_right₀ (by norm_num) hLn
      have h4 : (10 : ℚ) ^ 4 = 10000 := by norm_num
      simp only [calculatePriority, NON_VISIBLE_PRIORITY_BASE,
        if_neg Bool.false_ne_true, if_neg h0, if_true]
      linarith
  linarith

/-- C3 (witness): instance of the amended priority-band theorem. -/
theorem C3_visible_band_amended_witness :
    calculatePriority 4 false 0 < calculatePriority 1 true 0 :=
  C3_visible_band_amended 1 4 0 0 (by norm_num) (by norm_num) le_rfl le_rfl

/-- C6: if the queue (within the hard limit) holds exactly one task for a
node identity, then after `insertTaskByPriority` of a new task for the same
identity exactly one task for that identity remains queued: the new task if
its priority is strictly higher than the queued one's, otherwise the
previously queued task (the new request is dropped). -/
theorem C6_dedup_keeps_higher_priority (q : List WorkerTask) (task ex : WorkerTask)
    (hq : q.length ≤ HARD_QUEUE_LIMIT)
    (hex : q.filter (fun t => decide (t.nodeId = task.nodeId)) = [ex]) :
    (insertTaskByPriority q task).queue.filter (fun t => decide (t.nodeId = task.nodeId))
      = [if ex.priority < task.priority then task else ex] := by
  obtain ⟨rest, hrem, hfr⟩ := removeFirstP_of_filter_cons hex
  by_cases hp : ex.priority < task.priority
  · have hlen := removeFirstP_length hrem
    have hlt : rest.length < HARD_QUEUE_LIMIT := by omega
    rw [if_pos hp]
    simp only [insertTaskByPriority, hrem, if_pos hp,
      smartEviction_of_lt rest task hlt, if_true]
    obtain ⟨l1, l2, h1, h2⟩ := insertTaskSorted_eq_append rest task
    have hsplit : rest.filter (fun t => decide (t.nodeId = task.nodeId)) = [] := hfr
    rw [h2, List.filter_append] at hsplit
    obtain ⟨ha, hb⟩ := List.append_eq_nil.mp hsplit
    rw [h1, List.filter_append, List.filter_cons_of_pos (by simp), ha, hb]
    rfl
  · rw [if_neg hp]
    simp only [insertTaskByPriority, hrem, if_neg hp]
    exact hex

/-- Concrete queued request of priority 10 for node identity 7. -/
def c6ex : WorkerTask :=
  { nodeId := 7, lodLevel := 1, priority := 10, timestamp := 0,
    isVisible := true, distanceToCamera := 0 }

/-- Concrete incoming request of priority 50 for node identity 7. -/
def c6new : WorkerTask :=
  { nodeId := 7, lodLevel := 1, priority := 50, timestamp := 1,
    isVisible := true, distanceToCamera := 0 }

/-- C6 (witness): with priorities 10 and 50 for the same node, only the
priority-50 request remains queued afterward. -/
theorem C6_dedup_keeps_higher_priority_witness :
    (insertTaskByPriority [c6ex] c6new).queue.filter
      (fun t => decide (t.nodeId = c6new.nodeId)) = [c6new] := by
  have h := C6_dedup_keeps_higher_priority [c6ex] c6new c6ex (by decide) (by decide)
  rw [if_pos (by decide)] at h
  exact h

/-- C7: (a) over every sequence of submissions, camera updates, and
dispatches starting from the empty queue, the worker task queue length never
exceeds `HARD_QUEUE_LIMIT`; (b) whenever `smartEviction` evicts a task to
admit an incoming one, the evicted task's priority is strictly lower than
the incoming task's priority. -/
theorem C7_hard_limit_and_strict_eviction :
    (∀ ops : List WMOp, (runOps ops).length ≤ HARD_QUEUE_LIMIT) ∧
    (∀ (q : List WorkerTask) (t e : WorkerTask),
      (smartEviction q t).evicted = some e → e.priority < t.priority) := by
  constructor
  · intro ops
    exact runOps_aux ops [] (by simp)
  · intro q t e h
    exact smartEviction_evicted_lt h

/-- Concrete low-priority non-visible task filling the queue. -/
def c7low : WorkerTask :=
  { nodeId := 0, lodLevel := 1, priority := 5, timestamp := 0,
    isVisible := false, distanceToCamera := 0 }

/-- Concrete higher-priority incoming task. -/
def c7new : WorkerTask :=
  { nodeId := 1, lodLevel := 1, priority := 10, timestamp := 0,
    isVisible := false, distanceToCamera := 0 }

theorem foldl_min_replicate (n : ℕ) (a : ℚ) :
    (List.replicate n a).foldl min a = a := by
  induction n with
  | zero => rfl
  | succ k ih => rw [List.replicate_succ, List.foldl_cons, min_self]; exact ih

theorem min?_replicate_succ (n : ℕ) (a : ℚ) :
    (List.replicate (n + 1) a).min? = some a := by
  rw [List.replicate_succ]
  show some ((List.replicate n a).foldl min a) = some a
  rw [foldl_min_replicate]

theorem c7_evicted_eq :
    (smartEviction (List.replicate 120 c7low) c7new).evicted = some c7low := by
  have hfil : (List.replicate 120 c7low).filter (fun t => !t.isVisible)
      = List.replicate 120 c7low := by
    rw [List.filter_replicate, if_pos (by decide)]
  have hcand : evictionCandidate (List.replicate 120 c7low)
      = some (5, c7low, List.replicate 119 c7low) := by
    rw [evictionCandidate, hfil, List.map_replicate]
    have h5 : c7low.priority = (5 : ℚ) := rfl
    rw [h5, min?_replicate_succ 119 5]
    have hrem : removeFirstP (fun t => !t.isVisible && decide (t.priority = (5 : ℚ)))
        (List.replicate 120 c7low)
        = some (c7low, List.replicate 119 c7low) := by
      rw [List.replicate_succ, removeFirstP, if_pos (by decide)]
    simp only [hrem, Option.map_some']
  rw [smartEviction, if_pos (by rw [List.length_replicate]; decide)]
  simp only [hcand]
  rw [if_pos (show (5 : ℚ) < c7new.priority by decide)]

/-- C7 (witness): the queue bound on a concrete run and a concrete eviction
at the hard limit, which removes a strictly lower-priority task. -/
theorem C7_hard_limit_and_strict_eviction_witness :
    (runOps [WMOp.submit 1 1 true 0 0]).length ≤ HARD_QUEUE_LIMIT ∧
    c7low.priority < c7new.priority := by
  constructor
  · exact C7_hard_limit_and_strict_eviction.1 [WMOp.submit 1 1 true 0 0]
  · exact C7_hard_limit_and_strict_eviction.2 (List.replicate 120 c7low) c7new c7low
      c7_evicted_eq

end WorkerManager

namespace OctreeNode

/-- `OctreeNode.shouldCollapse(cameraPos)` (octree-node.ts): `false` when the
node has no children or is the root (level 0); otherwise compares the current
camera distance against the recomputed subdivision distance
`size * lodDistanceFactor`.  `hasChildren` stands for the null check
`this.children !== null`; `lodDistanceFactor` is the configured factor read
from the configuration manager. -/
def shouldCollapse (hasChildren : Bool) (level : ℕ)
    (distanceToCamera size lodDistanceFactor : ℚ) : Bool :=
  if !hasChildren || level == 0 then false
  else decide (size * lodDistanceFactor ≤ distanceToCamera)

/-- C5 (counterexample): a root node (level 0) with children whose camera
distance is at least `size * lodDistanceFactor`: the claimed iff demands
`shouldCollapse = true`, but the code returns `false` because of its
`level === 0` guard. -/
theorem C5_counterexample :
    shouldCollapse true 0 1000 1 1 = false ∧
    (1 : ℚ) * 1 ≤ 1000 := ⟨rfl, by norm_num⟩

/-- C5 (amended): `shouldCollapse` returns true iff the node has children,
its level is at least 1, and `distanceToCamera ≥ size * lodDistanceFactor`. -/
theorem C5_shouldCollapse_iff (hasChildren : Bool) (level : ℕ)
    (distanceToCamera size lodDistanceFactor : ℚ) :
    shouldCollapse hasChildren level distanceToCamera size lodDistanceFactor
      = (hasChildren && !(level == 0) &&
          decide (size * lodDistanceFactor ≤ distanceToCamera)) := by
  cases hasChildren <;> by_cases h0 : level = 0 <;>
    simp [shouldCollapse, h0]

end OctreeNode

namespace Frustum

/-- `Frustum.testPlanetOcclusion` (frustum-culling.ts).  The early exit
`distanceToPlanet < PLANET_RADIUS_MIN` is the `nearPlanet` flag; the
per-corner cone test (float trigonometry over the camera-to-corner geometry:
`asin`, `acos`, `sqrt`, dot products) is supplied as the parameter
`cornerOccluded` over the 8 AABB corners.  The classification by number of
occluded corners is translated from the source. -/
def testPlanetOcclusion (nearPlanet : Bool) (cornerOccluded : Fin 8 → Bool) : FrustumResult :=
  if nearPlanet then FrustumResult.INSIDE
  else
    let occludedCorners := (List.finRange 8).countP cornerOccluded
    if occludedCorners = 8 then FrustumResult.OUTSIDE
    else if 0 < occludedCorners then FrustumResult.INTERSECTS
    else FrustumResult.INSIDE

/-- `Frustum.testAABBWithPlanetOcclusion` (frustum-culling.ts), with the
plane-based frustum classification `frustumResult` (`testAABB`, float plane
arithmetic) as a parameter. -/
def testAABBWithPlanetOcclusion (frustumResult : FrustumResult)
    (nearPlanet : Bool) (cornerOccluded : Fin 8 → Bool) : FrustumResult :=
  if frustumResult = FrustumResult.OUTSIDE then FrustumResult.OUTSIDE
  else
    let occlusionResult := testPlanetOcclusion nearPlanet cornerOccluded
    if occlusionResult = FrustumResult.OUTSIDE then FrustumResult.OUTSIDE
    else if frustumResult = FrustumResult.INTERSECTS ∨
        occlusionResult = FrustumResult.INTERSECTS then
      FrustumResult.INTERSECTS
    else FrustumResult.INSIDE

/-- Numeric rank of a `FrustumResult` (its enum value in the source:
OUTSIDE = 0, INTERSECTS = 1, INSIDE = 2). -/
def rank : FrustumResult → ℕ
  | .OUTSIDE => 0
  | .INTERSECTS => 1
  | .INSIDE => 2

/-- The stricter of two classifications: the one with the smaller rank. -/
def stricter (a b : FrustumResult) : FrustumResult :=
  if rank a ≤ rank b then a else b

set_option maxRecDepth 4000 in
/-- C8: away from the near-planet early exit, the horizon-occlusion test
classifies a box OUTSIDE exactly when all 8 corners are occluded, INTERSECTS
exactly when at least one but not all corners are occluded, and INSIDE
exactly when none are; the combined frustum-plus-occlusion result equals the
stricter of the two classifications, and in particular a fully occluded box
that is not frustum-culled is classified OUTSIDE. -/
theorem C8_occlusion_classification :
    ∀ (fr : FrustumResult) (occ : Fin 8 → Bool),
      (testPlanetOcclusion false occ = FrustumResult.OUTSIDE ↔ ∀ i, occ i = true) ∧
      (testPlanetOcclusion false occ = FrustumResult.INTERSECTS ↔
        ((∃ i, occ i = true) ∧ ¬ ∀ i, occ i = true)) ∧
      (testPlanetOcclusion false occ = FrustumResult.INSIDE ↔ ∀ i, occ i = false) ∧
      (testAABBWithPlanetOcclusion fr false occ
        = stricter fr (testPlanetOcclusion false occ)) ∧
      ((fr ≠ FrustumResult.OUTSIDE ∧ ∀ i, occ i = true) →
        testAABBWithPlanetOcclusion fr false occ = FrustumResult.OUTSIDE) := by
  decide

/-- C8 (witness): an in-frustum box (INTERSECTS against the planes) with all
8 corners occluded by the planet is classified OUTSIDE. -/
theorem C8_occlusion_classification_witness :
    testAABBWithPlanetOcclusion FrustumResult.INTERSECTS false (fun _ => true)
      = FrustumResult.OUTSIDE :=
  (C8_occlusion_classification FrustumResult.INTERSECTS (fun _ => true)).2.2.2.2
    ⟨by decide, fun _ => rfl⟩

end Frustum

/-- Structural key identifying an octree cell: its center and its level.
Stands in for the JS object identity used by `pendingNodes` and for the
node-id string `originX_originY_originZ_level`. -/
def NodeKey : Type := (ℚ × ℚ × ℚ) × ℕ
deriving DecidableEq

/-- The scheduler-relevant fields of an `OctreeNode` (octree-node.ts).
`distanceToCamera` starts out as `Infinity`, modelled by `none`;
`lastOcclusionResult = -1` (never tested) is modelled by `none`;
`lastOcclusionFrame` starts at `-1`. -/
structure NodeData where
  level : ℕ
  centerX : ℚ
  centerY : ℚ
  centerZ : ℚ
  size : ℚ
  voxelGridSize : ℕ
  state : NodeState := NodeState.EMPTY
  cullState : CullState := CullState.UNKNOWN
  chunk : Option Chunk := none
  geometryTested : Bool := false
  hasGeometry : Bool := false
  isVisible : Bool := false
  distanceToCamera : Option ℚ := none
  lastOcclusionResult : Option FrustumResult := none
  lastOcclusionFrame : ℚ := -1
deriving DecidableEq, Repr

/-- The key of a node. -/
def nodeKey (d : NodeData) : NodeKey := ((d.centerX, d.centerY, d.centerZ), d.level)

namespace OctreeNode

/-- `OctreeNode.updateGeometryStatus(hasGeometry)` (octree-node.ts), the
effect on the node itself: record the test result, mark the node tested,
and set the cull state to GEOMETRY_TESTED.  The upward propagation to the
parent is `propagateGeometryStatus`. -/
def updateGeometryStatus (d : NodeData) (hasGeom : Bool) : NodeData :=
  { d with hasGeometry := hasGeom, geometryTested := true,
           cullState := CullState.GEOMETRY_TESTED }

/-- The parent half of `updateGeometryStatus`: a parent gains geometry as
soon as one child reports geometry; it becomes confirmed-empty (tested with
no geometry) only when all of its children are tested and empty.
`children` is the parent's child array (`null` → `none`). -/
def propagateGeometryStatus (parent : NodeData) (children : Option (List NodeData))
    (hasGeom : Bool) : NodeData :=
  if hasGeom then { parent with hasGeometry := true }
  else
    match children with
    | some cs =>
      if cs.all (fun c => c.geometryTested && !c.hasGeometry) then
        { parent with hasGeometry := false, geometryTested := true,
                      cullState := CullState.GEOMETRY_TESTED }
      else parent
    | none => parent

end OctreeNode

namespace OctreeChunkManager

/-- Outcome of the mesh-extraction step inside `processChunkVolume`
(material-system.ts): the marching-cubes extractor returned an empty mesh,
a non-empty mesh, or the step threw (extraction, normals, materials, or GL
buffer setup). -/
inductive MeshResult where
  | empty
  | nonEmpty
  | extractionError
deriving DecidableEq, Repr

/-- `OctreeChunkManager.processChunkVolume` (material-system.ts): an empty
mesh keeps the chunk as a ready empty placeholder (`isEmpty := true`) and
records a negative geometry test on the node; a non-empty mesh fills the
chunk, marks it ready, and records a positive test; a throw marks the chunk
errored and records a negative test. -/
def processChunkVolume (chunk : Chunk) (mesh : MeshResult) (d : NodeData) :
    Chunk × NodeData :=
  match mesh with
  | .empty =>
    ({ chunk with isEmpty := true, state := ChunkState.ready },
     OctreeNode.updateGeometryStatus d false)
  | .nonEmpty =>
    ({ chunk with isEmpty := false, state := ChunkState.ready },
     OctreeNode.updateGeometryStatus d true)
  | .extractionError =>
    ({ chunk with state := ChunkState.error },
     OctreeNode.updateGeometryStatus d false)

/-- How the awaited worker call inside `generateNodeChunk` settles: the
promise resolved with `type === 'complete'` (recording whether a volume was
attached and whether `getLODLevel(node.level)` is configured), or it
rejected (worker error, eviction, expiry, queue management). -/
inductive GenOutcome where
  | complete (hasVolume : Bool) (lodCfgPresent : Bool) (mesh : MeshResult)
  | rejected
deriving DecidableEq, Repr

/-- `OctreeChunkManager.generateNodeChunk` (material-system.ts): the state
updates applied to the owning node when the worker call settles.  On a
complete result with a volume and a configured LOD level, a fresh chunk
(state `generating`) is processed by `processChunkVolume`, installed on the
node, and the node becomes READY.  On a complete result without volume or
LOD config, nothing changes.  On a rejection the node reverts to EMPTY and
records a negative geometry test (`updateGeometryStatus(false)`).  In every
case the `finally` block removes the node from the pending set. -/
def generateNodeChunk (d : NodeData) (pending : Finset NodeKey) (o : GenOutcome) :
    NodeData × Finset NodeKey :=
  match o with
  | .complete true true mesh =>
    let c0 : Chunk := { isEmpty := false, state := ChunkState.generating }
    let r := processChunkVolume c0 mesh d
    ({ r.2 with chunk := some r.1, state := NodeState.READY },
     pending.erase (nodeKey d))
  | .complete _ _ _ => (d, pending.erase (nodeKey d))
  | .rejected =>
    (OctreeNode.updateGeometryStatus { d with state := NodeState.EMPTY } false,
     pending.erase (nodeKey d))

/-- A concrete node mid-generation (no chunk installed yet). -/
def c1node : NodeData :=
  { level := 3, centerX := 16, centerY := 16, centerZ := 16, size := 32,
    voxelGridSize := 32, state := NodeState.GENERATING }

/-- C1 (counterexample): completing a generation whose extraction yields
zero triangles leaves a non-null (empty placeholder) chunk on a node with
`hasGeometry = false`, contradicting the claimed invariant
`chunk ≠ null ⇒ hasGeometry`. -/
theorem C1_counterexample :
    (generateNodeChunk c1node ∅ (GenOutcome.complete true true MeshResult.empty)).1.chunk
      = some { isEmpty := true, state := ChunkState.ready } ∧
    (generateNodeChunk c1node ∅ (GenOutcome.complete true true MeshResult.empty)).1.hasGeometry
      = false ∧
    (generateNodeChunk c1node ∅ (GenOutcome.complete true true MeshResult.empty)).1.state
      = NodeState.READY := by
  exact ⟨rfl, rfl, rfl⟩

/-- C1 (amended): after `generateNodeChunk` settles on a node that had no
chunk, a non-null chunk implies the node is READY and geometry-tested, and
`hasGeometry` is true exactly when the extraction produced a non-empty mesh;
an empty extraction deliberately leaves a ready empty placeholder chunk with
`hasGeometry = false` (kept so empty space is not re-tested every frame). -/
theorem C1_chunk_invariant_amended (d : NodeData) (pending : Finset NodeKey)
    (o : GenOutcome) (hchunk : d.chunk = none) :
    (generateNodeChunk d pending o).1.chunk ≠ none →
      (generateNodeChunk d pending o).1.state = NodeState.READY ∧
      (generateNodeChunk d pending o).1.geometryTested = true ∧
      ((generateNodeChunk d pending o).1.hasGeometry = true ↔
        o = GenOutcome.complete true true MeshResult.nonEmpty) := by
  intro hne
  cases o with
  | complete hv hc mesh =>
    cases hv <;> cases hc <;> cases mesh <;>
      simp_all [generateNodeChunk, processChunkVolume, OctreeNode.updateGeometryStatus]
  | rejected =>
    simp_all [generateNodeChunk, OctreeNode.updateGeometryStatus]

/-- C1 (witness): the amended invariant at a concrete successful non-empty
generation. -/
theorem C1_chunk_invariant_amended_witness :
    (generateNodeChunk c1node ∅ (GenOutcome.complete true true MeshResult.nonEmpty)).1.state
        = NodeState.READY ∧
    (generateNodeChunk c1node ∅ (GenOutcome.complete true true MeshResult.nonEmpty)).1.geometryTested
        = true ∧
    ((generateNodeChunk c1node ∅ (GenOutcome.complete true true MeshResult.nonEmpty)).1.hasGeometry
        = true ↔
      GenOutcome.complete true true MeshResult.nonEmpty
        = GenOutcome.complete true true MeshResult.nonEmpty) :=
  C1_chunk_invariant_amended c1node ∅ (GenOutcome.complete true true MeshResult.nonEmpty)
    rfl (by decide)

/-- C9: when a node's generation task fails (the worker promise rejects),
the failure handler leaves the node EMPTY, geometry-tested with
`hasGeometry = false`, and removes it from the pending set; the handler is
the total catch/finally of `generateNodeChunk`, so no failure escapes the
scheduler. -/
theorem C9_failure_handling (d : NodeData) (pending : Finset NodeKey) :
    (generateNodeChunk d pending GenOutcome.rejected).1.state = NodeState.EMPTY ∧
    (generateNodeChunk d pending GenOutcome.rejected).1.geometryTested = true ∧
    (generateNodeChunk d pending GenOutcome.rejected).1.hasGeometry = false ∧
    nodeKey d ∉ (generateNodeChunk d pending GenOutcome.rejected).2 :=
  ⟨rfl, rfl, rfl, Finset.not_mem_erase _ _⟩

end OctreeChunkManager

mutual
/-- An octree node with its child slot (`OctreeNode` and its `children`
field, octree-node.ts). -/
inductive OTree where
  | node : NodeData → OKids → OTree

/-- The `children` field of a node: `null` (`noKids`) or an array of child
subtrees. -/
inductive OKids where
  | noKids : OKids
  | kids : OList → OKids

/-- A list of sibling subtrees. -/
inductive OList where
  | nil : OList
  | cons : OTree → OList → OList
end

/-- The data stored at the root of a subtree. -/
def OTree.data : OTree → NodeData
  | .node d _ => d

/-- The child slot at the root of a subtree. -/
def OTree.kidsOf : OTree → OKids
  | .node _ k => k

/-- Whether the child slot is the JS `null`. -/
def OKids.isNull : OKids → Bool
  | .noKids => true
  | .kids _ => false

/-- Length of a sibling list. -/
def OList.length : OList → ℕ
  | .nil => 0
  | .cons _ ts => OList.length ts + 1

/-- Index into a sibling list. -/
def OList.get? : OList → ℕ → Option OTree
  | .nil, _ => none
  | .cons t _, 0 => some t
  | .cons _ ts, n + 1 => OList.get? ts n

/-- The subtree at a path of child indices. -/
def OTree.atPath : OTree → List ℕ → Option OTree
  | t, [] => some t
  | .node _ OKids.noKids, _ :: _ => none
  | .node _ (OKids.kids l), i :: p =>
    match OList.get? l i with
    | some c => OTree.atPath c p
    | none => none

namespace OctreeNode

mutual
/-- `OctreeNode.allChildrenReady()` (octree-node.ts) of the node owning the
given child slot: false when `children` is null or empty; otherwise every
child must be READY, geometry-tested, and either have geometry or have all
of its own children ready. -/
def allChildrenReadyK : OKids → Bool
  | .noKids => false
  | .kids l => (!(OList.length l == 0)) && allReadyL l

/-- The per-child loop of `allChildrenReady`. -/
def allReadyL : OList → Bool
  | .nil => true
  | .cons (.node cd ck) ts =>
    ((cd.state == NodeState.READY) && cd.geometryTested &&
      (cd.hasGeometry || allChildrenReadyK ck)) && allReadyL ts
end

/-- `OctreeNode.shouldRender()` (octree-node.ts): an untested node without
geometry does not render; a node with geometry renders; otherwise an
internal node renders its own (possibly stale) geometry while its children
are not all ready. -/
def shouldRender (d : NodeData) (k : OKids) : Bool :=
  if !d.geometryTested && !d.hasGeometry then false
  else if d.hasGeometry then true
  else (!k.isNull) && !(allChildrenReadyK k)

/-- The chunk conditions of `collectRenderableNodes`:
`this.chunk && this.chunk.state === "ready" && !this.chunk.isEmpty`. -/
def chunkRenderable (d : NodeData) : Bool :=
  match d.chunk with
  | some c => (c.state == ChunkState.ready) && !c.isEmpty
  | none => false

mutual
/-- `OctreeNode.collectRenderableNodes(result)` (octree-node.ts): skip
invisible subtrees entirely; push a node that should render and owns a
ready non-empty chunk; recurse into children. -/
def collectRenderableNodesT : OTree → List NodeData
  | .node d k =>
    if !d.isVisible then []
    else
      (if shouldRender d k && chunkRenderable d then [d] else []) ++
        collectRenderableNodesK k
def collectRenderableNodesK : OKids → List NodeData
  | .noKids => []
  | .kids l => collectRenderableNodesL l
def collectRenderableNodesL : OList → List NodeData
  | .nil => []
  | .cons t ts => collectRenderableNodesT t ++ collectRenderableNodesL ts
end

/-- `OctreeNode.getAllRenderableNodes()` (octree-node.ts). -/
def getAllRenderableNodes (t : OTree) : List NodeData :=
  collectRenderableNodesT t

/-- The soundness property of a collected node: visible with a ready
non-empty chunk. -/
def renderableSound (d : NodeData) : Prop :=
  d.isVisible = true ∧
    ∃ c, d.chunk = some c ∧ c.state = ChunkState.ready ∧ c.isEmpty = false

mutual
theorem collectRenderable_sound_T (t : OTree) :
    ∀ d ∈ collectRenderableNodesT t, renderableSound d := by
  match t with
  | .node nd k =>
    intro d hd
    rw [collectRenderableNodesT] at hd
    by_cases hv : nd.isVisible
    · rw [if_neg (by simp [hv])] at hd
      rw [List.mem_append] at hd
      rcases hd with hd | hd
      · by_cases hc : shouldRender nd k && chunkRenderable nd
        · rw [if_pos hc] at hd
          rw [List.mem_singleton] at hd
          subst hd
          have h2 : chunkRenderable d = true := (Bool.and_eq_true .. ▸ hc).2
          rw [chunkRenderable] at h2
          refine ⟨hv, ?_⟩
          match hch : d.chunk with
          | some c =>
            rw [hch] at h2
            simp only [Bool.and_eq_true, beq_iff_eq, Bool.not_eq_true'] at h2
            exact ⟨c, rfl, h2.1, h2.2⟩
          | none => rw [hch] at h2; exact absurd h2 (by simp)
        · rw [if_neg hc] at hd
          exact absurd hd (List.not_mem_nil d)
      · exact collectRenderable_sound_K k d hd
    · rw [if_pos (by simp [hv])] at hd
      exact absurd hd (List.not_mem_nil d)

theorem collectRenderable_sound_K (k : OKids) :
    ∀ d ∈ collectRenderableNodesK k, renderableSound d := by
  match k with
  | .noKids => intro d hd; rw [collectRenderableNodesK] at hd; exact absurd hd (List.not_mem_nil d)
  | .kids l => intro d hd; rw [collectRenderableNodesK] at hd; exact collectRenderable_sound_L l d hd

theorem collectRenderable_sound_L (l : OList) :
    ∀ d ∈ collectRenderableNodesL l, renderableSound d := by
  match l with
  | .nil => intro d hd; rw [collectRenderableNodesL] at hd; exact absurd hd (List.not_mem_nil d)
  | .cons t ts =>
    intro d hd
    rw [collectRenderableNodesL, List.mem_append] at hd
    rcases hd with hd | hd
    · exact collectRenderable_sound_T t d hd
    · exact collectRenderable_sound_L ts d hd
end

/-- C10: every node returned by `getAllRenderableNodes` is visible and owns
a non-null chunk in state "ready" with `isEmpty = false`; empty placeholder
chunks and incomplete chunks never reach the renderable set. -/
theorem C10_renderable_nodes_sound (t : OTree) (d : NodeData)
    (hd : d ∈ getAllRenderableNodes t) :
    d.isVisible = true ∧
      ∃ c, d.chunk = some c ∧ c.state = ChunkState.ready ∧ c.isEmpty = false :=
  collectRenderable_sound_T t d hd

/-- A concrete renderable node for the C10 witness. -/
def c10node : NodeData :=
  { level := 1, centerX := 0, centerY := 0, centerZ := 0, size := 64,
    voxelGridSize := 32, state := NodeState.READY,
    cullState := CullState.GEOMETRY_TESTED,
    chunk := some { isEmpty := false, state := ChunkState.ready },
    geometryTested := true, hasGeometry := true, isVisible := true }

/-- C10 (witness): the soundness property evaluated on a one-node tree. -/
theorem C10_renderable_nodes_sound_witness :
    c10node.isVisible = true ∧
      ∃ c, c10node.chunk = some c ∧ c.state = ChunkState.ready ∧ c.isEmpty = false :=
  C10_renderable_nodes_sound (OTree.node c10node OKids.noKids) c10node
    (by rw [getAllRenderableNodes, collectRenderableNodesT]; simp [c10node,
      shouldRender, chunkRenderable, collectRenderableNodesK])

end OctreeNode

namespace OctreeChunkManager

/-- `distance < c` where the distance may still be `Infinity` (`none`). -/
def qlt : Option ℚ → ℚ → Bool
  | none, _ => false
  | some x, c => decide (x < c)

/-- `distance ≥ c` where the distance may still be `Infinity` (`none`). -/
def qge : Option ℚ → ℚ → Bool
  | none, _ => true
  | some x, c => decide (c ≤ x)

/-- `distance > c` where the distance may still be `Infinity` (`none`). -/
def qgt : Option ℚ → ℚ → Bool
  | none, _ => true
  | some x, c => decide (c < x)

/-- The configuration snapshot the scheduler reads
(`ChunkConfigManager`): the number of LOD levels, the LOD distance factor,
and the per-level iso bias are read-only parameters.

`fadeOutEnd` — Modelled from the spec: the `getLODLevel(level)` lookup whose
`fadeOutEnd` field the collapse guard reads is part of a configuration class
revision missing from the sources (the chunk-config.ts present predates the
`fadeOutEnd`/`getLodDistanceFactor` API that material-system.ts and
octree-node.ts use), so the per-level lookup is kept abstract: `none` models
an unconfigured level (`getLODLevel` returning `undefined`). -/
structure ManagerConfig where
  numLODLevels : ℕ
  lodDistanceFactor : ℚ
  isoLevelBias : ℚ
  fadeOutEnd : ℕ → Option ℚ

/-- The per-frame external computations the traversal consumes: the float
camera distance of a node's center (`vec3.distance(bounds.center,
cameraPos)`), the combined frustum-plus-occlusion classification of its box
(`testAABBWithPlanetOcclusion({min, max}, cameraPos)`, a function of the
box's center and size), and the seeded density field
(`densityAtSeeded(x, y, z, seed, bias)`).  All three are deterministic
functions of the camera/world state, fixed for one `update` call. -/
structure FrameOracles where
  distO : ℚ × ℚ × ℚ → ℚ
  occlO : ℚ × ℚ × ℚ → ℚ → FrustumResult
  densO : ℚ → ℚ → ℚ → ℚ → ℚ

/-- `bounds.center` of a node. -/
def centerOf (d : NodeData) : ℚ × ℚ × ℚ := (d.centerX, d.centerY, d.centerZ)

/-- One `update` call's ambient data: configuration, oracles, the frame id
(`lastUpdateTime`) used by the occlusion memo, and the current timestamp. -/
structure FrameCtx where
  cfg : ManagerConfig
  orc : FrameOracles
  frameId : ℚ
  now : ℚ

/-- `getMaxLevel()` (material-system.ts): `numLODLevels - 1`. -/
def maxLevelOf (cfg : ManagerConfig) : ℕ := cfg.numLODLevels - 1

/-- `OctreeNode.performCullTest(seed, perLevelBias)` (octree-node.ts):
cached via `cullState`; samples the density (with bias
`(7 - level) * perLevelBias`, `estimatedMaxLevel = 7`) at the box center and
four marching-cubes-bounds corners, and classifies INSIDE when all five
samples exceed 5, OUTSIDE when all five are below -5, INTERSECTS
otherwise. -/
def performCullTest (densO : ℚ → ℚ → ℚ → ℚ → ℚ) (isoLevelBias : ℚ)
    (d : NodeData) : NodeData :=
  if d.cullState ≠ CullState.UNKNOWN then d
  else
    let actualBias := ((7 : ℚ) - (d.level : ℚ)) * isoLevelBias
    let vox := d.size / (d.voxelGridSize : ℚ)
    let mcHalf := (d.size + vox) / 2
    let samples : List (ℚ × ℚ × ℚ) :=
      [ (d.centerX, d.centerY, d.centerZ),
        (d.centerX - mcHalf, d.centerY - mcHalf, d.centerZ - mcHalf),
        (d.centerX + mcHalf, d.centerY + mcHalf, d.centerZ + mcHalf),
        (d.centerX - mcHalf, d.centerY + mcHalf, d.centerZ - mcHalf),
        (d.centerX + mcHalf, d.centerY - mcHalf, d.centerZ + mcHalf) ]
    let positiveCount :=
      samples.countP (fun s => decide ((5 : ℚ) < densO s.1 s.2.1 s.2.2 actualBias))
    let negativeCount :=
      samples.countP (fun s => decide (densO s.1 s.2.1 s.2.2 actualBias < (-5 : ℚ)))
    let cs :=
      if positiveCount = samples.length then CullState.INSIDE
      else if negativeCount = samples.length then CullState.OUTSIDE
      else CullState.INTERSECTS
    { d with cullState := cs }

/-- `OctreeNode.hasConfirmedGeometry()` (octree-node.ts), computed top-down:
a tested node answers with its own `hasGeometry`; an untested node defers to
its parent's answer (`parentConfirmed`), and an untested parentless node
answers `level === 0`. -/
def hasConfirmedGeometry (d : NodeData) (parentConfirmed : Option Bool) : Bool :=
  if d.geometryTested then d.hasGeometry
  else
    match parentConfirmed with
    | some b => b
    | none => d.level == 0

/-- `OctreeNode.shouldSubdivide(cameraPos, maxLevel)` (octree-node.ts):
below the maximum level, with confirmed geometry, and closer than
`size * lodDistanceFactor`. -/
def shouldSubdivide (d : NodeData) (confirmed : Bool) (maxLevel : ℕ)
    (lodDistanceFactor : ℚ) : Bool :=
  if maxLevel ≤ d.level then false
  else if !confirmed then false
  else qlt d.distanceToCamera (d.size * lodDistanceFactor)

/-- `OctreeNode.shouldCollapse(cameraPos)` (octree-node.ts) on the stored
(possibly infinite) distance; see `OctreeNode.shouldCollapse` for the same
guard structure on a finite distance. -/
def shouldCollapseNode (d : NodeData) (hasChildren : Bool)
    (lodDistanceFactor : ℚ) : Bool :=
  if !hasChildren || d.level == 0 then false
  else qge d.distanceToCamera (d.size * lodDistanceFactor)

/-- `OctreeChunkManager.calculatePriority(node, isVisible, isInitial,
isPredictive)` (material-system.ts).  A still-infinite node distance (fresh
children) saturates the squared-distance penalty at its cap 20000. -/
def calculatePriority (d : NodeData) (isVisible isInitial isPredictive : Bool) : ℚ :=
  let basePriority : ℚ :=
    if isInitial then
      if d.level = 0 then 1000000
      else if d.level = 1 then 500000
      else 100000
    else if d.level = 0 then 100000
    else if isVisible then 10000 * (10 : ℚ) ^ d.level
    else if isPredictive then 5000 * (10 : ℚ) ^ d.level
    else 1000 + (d.level : ℚ) * 100
  let distancePenalty : ℚ :=
    match d.distanceToCamera with
    | none => 20000
    | some dist => min (dist * dist * (2 / 10)) 20000
  basePriority - distancePenalty

/-- A `GenerationRequest` (material-system.ts); `node` is the structural key
of the owning node and `level` its LOD level (used by the essential-queue
ordering). -/
structure GenRequest where
  node : NodeKey
  level : ℕ
  priority : ℚ
  isVisible : Bool
  timestamp : ℚ
  isInitial : Bool
  isPredictive : Bool
  isEssentialDependency : Bool
  dependencyLevel : ℕ := 0
deriving DecidableEq

/-- `MAX_LOCAL_QUEUE_SIZE` (material-system.ts). -/
def MAX_LOCAL_QUEUE_SIZE : ℕ := 40

/-- `MAX_ESSENTIAL_QUEUE_SIZE` (material-system.ts). -/
def MAX_ESSENTIAL_QUEUE_SIZE : ℕ := 20

/-- The scheduler's queue state: the essential and regular generation
queues and the pending-node set.  `enqueuedLog` is verification
instrumentation only: it records, in order, the requests enqueued during
the current traversal (the code's observable effect of pushing into either
queue); nothing in the modelled code reads it. -/
structure SchedState where
  essentialQueue : List GenRequest := []
  generationQueue : List GenRequest := []
  pending : Finset NodeKey := ∅
  enqueuedLog : List GenRequest := []
  releasedChunks : List Chunk := []

/-- The essential-queue insertion loop of `queueNodeGeneration`: strictly
by level, then by descending priority. -/
def insertEssential : List GenRequest → GenRequest → List GenRequest
  | [], r => [r]
  | x :: xs, r =>
    if r.level < x.level then r :: x :: xs
    else if r.level = x.level ∧ x.priority < r.priority then r :: x :: xs
    else x :: insertEssential xs r

/-- The regular-queue insertion loop of `queueNodeGeneration`: visible
requests ahead of non-visible ones; among visible ones deeper level first,
then priority; otherwise by priority. -/
def insertRegular : List GenRequest → GenRequest → List GenRequest
  | [], r => [r]
  | x :: xs, r =>
    if r.isVisible && !x.isVisible then r :: x :: xs
    else if r.isVisible && x.isVisible then
      if x.level < r.level then r :: x :: xs
      else if r.level = x.level ∧ x.priority < r.priority then r :: x :: xs
      else x :: insertRegular xs r
    else if x.priority < r.priority then r :: x :: xs
    else x :: insertRegular xs r

mutual
/-- Whether any node of a subtree (its root included) is visible. -/
def anyVisibleT : OTree → Bool
  | .node d k => d.isVisible || anyVisibleK k
/-- Whether any node under a child slot is visible. -/
def anyVisibleK : OKids → Bool
  | .noKids => false
  | .kids l => anyVisibleL l
/-- Whether any node of a sibling list's subtrees is visible. -/
def anyVisibleL : OList → Bool
  | .nil => false
  | .cons t ts => anyVisibleT t || anyVisibleL ts
end

/-- `OctreeChunkManager.hasVisibleDescendants(node)` (material-system.ts):
some strict descendant is visible. -/
def hasVisibleDescendants (k : OKids) : Bool := anyVisibleK k

/-- `OctreeChunkManager.isEssentialDependency(node)` (material-system.ts):
shallow (level ≤ 2) with a visible descendant. -/
def isEssentialDependency (d : NodeData) (k : OKids) : Bool :=
  if 2 < d.level then false else hasVisibleDescendants k

/-- `OctreeChunkManager.queueNodeGeneration(node, isVisible, isInitial,
isPredictive)` (material-system.ts): refuse when pending or in state
GENERATING/READY/CULLED; classify essential (shallow dependency or initial);
apply the per-queue caps (the regular cap only blocks non-visible,
non-predictive requests); insert into the matching queue; mark pending, and
for non-predictive requests switch the node to GENERATING. -/
def queueNodeGeneration (st : SchedState) (d : NodeData) (k : OKids)
    (isVisible : Bool) (now : ℚ) (isInitial : Bool := false)
    (isPredictive : Bool := false) : SchedState × NodeData :=
  if nodeKey d ∈ st.pending ∨ d.state = NodeState.GENERATING ∨
      d.state = NodeState.READY ∨ d.state = NodeState.CULLED then
    (st, d)
  else
    let isEssential := isEssentialDependency d k || isInitial
    if isEssential ∧ MAX_ESSENTIAL_QUEUE_SIZE ≤ st.essentialQueue.length then
      (st, d)
    else if ¬isEssential ∧ MAX_LOCAL_QUEUE_SIZE ≤ st.generationQueue.length ∧
        isVisible = false ∧ isPredictive = false then
      (st, d)
    else
      let priority := calculatePriority d isVisible isInitial isPredictive
      let r : GenRequest :=
        { node := nodeKey d, level := d.level, priority := priority,
          isVisible := isVisible, timestamp := now, isInitial := isInitial,
          isPredictive := isPredictive, isEssentialDependency := isEssential }
      let st1 :=
        if isEssential then
          { st with essentialQueue := insertEssential st.essentialQueue r,
                    pending := insert (nodeKey d) st.pending,
                    enqueuedLog := st.enqueuedLog ++ [r] }
        else
          { st with generationQueue := insertRegular st.generationQueue r,
                    pending := insert (nodeKey d) st.pending,
                    enqueuedLog := st.enqueuedLog ++ [r] }
      let d1 := if isPredictive then d else { d with state := NodeState.GENERATING }
      (st1, d1)

/-- One octant of `OctreeNode.createChildren()` (octree-node.ts): half the
parent size, centered at `center + (axis - 0.5) * childSize`, level + 1,
voxel grid `max 8 parentGrid`, all other fields at their constructor
defaults. -/
def mkChild (d : NodeData) (x y z : ℕ) : NodeData :=
  { level := d.level + 1,
    centerX := d.centerX + ((x : ℚ) - 1 / 2) * (d.size / 2),
    centerY := d.centerY + ((y : ℚ) - 1 / 2) * (d.size / 2),
    centerZ := d.centerZ + ((z : ℚ) - 1 / 2) * (d.size / 2),
    size := d.size / 2,
    voxelGridSize := max 8 d.voxelGridSize }

/-- The 8 octants of `createChildren`, in the source's x/y/z loop order. -/
def createChildrenList (d : NodeData) : List NodeData :=
  [ mkChild d 0 0 0, mkChild d 0 0 1, mkChild d 0 1 0, mkChild d 0 1 1,
    mkChild d 1 0 0, mkChild d 1 0 1, mkChild d 1 1 0, mkChild d 1 1 1 ]

mutual
/-- All chunks stored in a subtree. -/
def collectChunksT : OTree → List Chunk
  | .node d k =>
    (match d.chunk with | some c => [c] | none => []) ++ collectChunksK k
/-- All chunks stored under a child slot. -/
def collectChunksK : OKids → List Chunk
  | .noKids => []
  | .kids l => collectChunksL l
/-- All chunks stored in a sibling list. -/
def collectChunksL : OList → List Chunk
  | .nil => []
  | .cons t ts => collectChunksT t ++ collectChunksL ts
end

/-- `OctreeNode.destroyChildren(gl)` (octree-node.ts): the iterative stack
loop frees every descendant chunk (`chunk.cleanup(gl)`; returned here as the
list of released chunks) and unlinks the whole child subtree; the parent
ends READY if it still owns a chunk, EMPTY otherwise.  The per-descendant
field resets of the source act on nodes that leave the tree. -/
def destroyChildren (d : NodeData) (k : OKids) : NodeData × List Chunk :=
  ({ d with state := if d.chunk.isSome then NodeState.READY else NodeState.EMPTY },
   collectChunksK k)

/-- The per-child body of the subdivide branch of
`updateOctreeStructureIterative` (material-system.ts lines 558-567): store
the occlusion memo for this frame and queue generation for every child not
classified OUTSIDE. -/
def subdivideChild (fc : FrameCtx) (st : SchedState) (c : NodeData) :
    NodeData × SchedState :=
  let c1 :=
    if c.lastOcclusionFrame ≠ fc.frameId then
      { c with lastOcclusionResult := some (fc.orc.occlO (centerOf c) c.size),
               lastOcclusionFrame := fc.frameId }
    else c
  if c1.lastOcclusionResult ≠ some FrustumResult.OUTSIDE then
    let r := queueNodeGeneration st c1 OKids.noKids true fc.now
    (r.2, r.1)
  else (c1, st)

/-- The subdivide branch's loop over the freshly created children. -/
def subdivideChildren (fc : FrameCtx) (st : SchedState) :
    List NodeData → List NodeData × SchedState
  | [] => ([], st)
  | c :: cs =>
    let r := subdivideChild fc st c
    let rs := subdivideChildren fc r.2 cs
    (r.1 :: rs.1, rs.2)

/-- The same-frame stack visit of a child created by the subdivide branch.
Such a child hits the occlusion memo written moments before, is untested and
childless, and is pending whenever it is not OUTSIDE, so its visit only
updates its distance and visibility and runs the density cull test; the
queue blocks are refused by the pending check, and neither subdivision
(untested) nor collapse (childless) can fire.  The scheduler state is
untouched. -/
def visitFreshChild (fc : FrameCtx) (c : NodeData) : NodeData :=
  let c0 := { c with distanceToCamera := some (fc.orc.distO (centerOf c)) }
  let occ := c0.lastOcclusionResult
  let c2 := { c0 with isVisible := decide (occ ≠ some FrustumResult.OUTSIDE) }
  if occ = some FrustumResult.OUTSIDE then c2
  else if c2.cullState = CullState.UNKNOWN then
    performCullTest fc.orc.densO fc.cfg.isoLevelBias c2
  else c2

/-- Convert a list of fresh (childless) nodes into a sibling list. -/
def leavesToOList : List NodeData → OList
  | [] => OList.nil
  | c :: cs => OList.cons (OTree.node c OKids.noKids) (leavesToOList cs)

/-- The sensing stages of one visit (material-system.ts lines 498-509):
update the camera distance, compute or reuse the memoized occlusion result,
and set visibility.  Returns the updated node and the previous `isVisible`
(`wasVisible`). -/
def visitSense (fc : FrameCtx) (d : NodeData) : NodeData × Bool :=
  let d0 := { d with distanceToCamera := some (fc.orc.distO (centerOf d)) }
  let wasVisible := d0.isVisible
  let d1 :=
    if d0.lastOcclusionFrame ≠ fc.frameId then
      { d0 with lastOcclusionResult := some (fc.orc.occlO (centerOf d0) d0.size),
                lastOcclusionFrame := fc.frameId }
    else d0
  ({ d1 with isVisible := decide (d1.lastOcclusionResult ≠ some FrustumResult.OUTSIDE) },
   wasVisible)

/-- The second queueing block of one visit (material-system.ts lines
528-534): queue generation for a visible untested non-pending node. -/
def visitQueueSecond (fc : FrameCtx) (r1 : SchedState × NodeData) (k : OKids) :
    SchedState × NodeData :=
  if r1.2.isVisible && !r1.2.geometryTested &&
      !(decide (nodeKey r1.2 ∈ r1.1.pending)) then
    queueNodeGeneration r1.1 r1.2 k true fc.now
  else r1

/-- The two queueing blocks of one visit (material-system.ts lines 519-534):
queue generation for a newly-visible untested non-pending node (first
block), then for any visible untested non-pending node (second block). -/
def visitQueue (fc : FrameCtx) (st : SchedState) (d2 : NodeData)
    (wasVisible : Bool) (k : OKids) : SchedState × NodeData :=
  visitQueueSecond fc
    (if d2.isVisible && !wasVisible && !d2.geometryTested &&
        !(decide (nodeKey d2 ∈ st.pending)) then
      queueNodeGeneration st d2 k true fc.now
    else (st, d2)) k

/-- The classification stages of one visit (material-system.ts lines
536-546): reset the flags of a visible tested-empty node (re-test rule),
then run the cached density cull test. -/
def visitClassify (fc : FrameCtx) (d4 : NodeData) : NodeData :=
  let d5 :=
    if d4.isVisible && d4.geometryTested && !d4.hasGeometry then
      { d4 with geometryTested := false, hasGeometry := false,
                cullState := CullState.UNKNOWN }
    else d4
  if d5.cullState = CullState.UNKNOWN then
    performCullTest fc.orc.densO fc.cfg.isoLevelBias d5
  else d5

mutual
/-- One visit of `updateOctreeStructureIterative`'s loop body
(material-system.ts lines 496-581) together with the visits of the node's
descendants (the explicit stack visits children after their parent, last
pushed first; the recursion below processes sibling lists from the tail, so
the visit order and the state threading match the stack machine).  Stages,
in source order: `visitSense` (distance, occlusion memo, visibility); prune
the subtree when OUTSIDE; `visitQueue` (the two generation-queueing
blocks); `visitClassify` (the tested-empty re-test rule and the cached
density cull test); the early `continue` for invisible untested
density-culled nodes; subdivide (creating, classifying, and queueing
children) or collapse (only beyond `fadeOutEnd + 50`); recurse into the
surviving children. -/
def visitTree (fc : FrameCtx) (parentConfirmed : Option Bool) :
    OTree → SchedState → OTree × SchedState
  | .node d k, st =>
    let s := visitSense fc d
    if s.1.lastOcclusionResult = some FrustumResult.OUTSIDE then
      (OTree.node s.1 k, st)
    else
      let q := visitQueue fc st s.1 s.2 k
      let d6 := visitClassify fc q.2
      if !d6.geometryTested && d6.cullState = CullState.OUTSIDE && !d6.isVisible then
        (OTree.node d6 k, q.1)
      else
        let confirmed := hasConfirmedGeometry d6 parentConfirmed
        let ssub := shouldSubdivide d6 confirmed (maxLevelOf fc.cfg) fc.cfg.lodDistanceFactor
        let scol := shouldCollapseNode d6 (!k.isNull) fc.cfg.lodDistanceFactor
        if ssub && k.isNull && d6.geometryTested && d6.hasGeometry then
          let d7 := { d6 with state := NodeState.SUBDIVIDED }
          let r3 := subdivideChildren fc q.1 (createChildrenList d7)
          let cs2 := r3.1.map (visitFreshChild fc)
          (OTree.node d7 (OKids.kids (leavesToOList cs2)), r3.2)
        else if scol && !k.isNull then
          let safeOk :=
            match fc.cfg.fadeOutEnd d6.level with
            | some f => qgt d6.distanceToCamera (f + 50)
            | none => false
          if safeOk then
            let r4 := destroyChildren d6 k
            (OTree.node r4.1 OKids.noKids,
             { q.1 with releasedChunks := q.1.releasedChunks ++ r4.2 })
          else
            let r5 := visitKids fc (some confirmed) k q.1
            (OTree.node d6 r5.1, r5.2)
        else
          let r5 := visitKids fc (some confirmed) k q.1
          (OTree.node d6 r5.1, r5.2)

/-- Visit the children under a child slot. -/
def visitKids (fc : FrameCtx) (parentConfirmed : Option Bool) :
    OKids → SchedState → OKids × SchedState
  | OKids.noKids, st => (OKids.noKids, st)
  | OKids.kids l, st =>
    let r := visitList fc parentConfirmed l st
    (OKids.kids r.1, r.2)

/-- Visit a sibling list; the stack pops the last-pushed sibling first, so
the tail of the list is visited before the head. -/
def visitList (fc : FrameCtx) (parentConfirmed : Option Bool) :
    OList → SchedState → OList × SchedState
  | OList.nil, st => (OList.nil, st)
  | OList.cons t ts, st =>
    let rs := visitList fc parentConfirmed ts st
    let rt := visitTree fc parentConfirmed t rs.2
    (OList.cons rt.1 rs.1, rt.2)
end

/-- `OctreeChunkManager.updateOctreeStructureIterative(root, cameraPos)`
(material-system.ts): the full traversal from the root (whose
`hasConfirmedGeometry` walk has no parent to defer to).  The `enqueuedLog`
of the passed state is cleared so the log records this call's enqueues. -/
def updateOctreeStructureIterative (fc : FrameCtx) (root : OTree)
    (st : SchedState) : OTree × SchedState :=
  visitTree fc none root { st with enqueuedLog := [] }

/-- `st'` extends `st` on the released-chunk log (the traversal only ever
appends to it). -/
def relExt (st st' : SchedState) : Prop :=
  ∃ add, st'.releasedChunks = st.releasedChunks ++ add

theorem relExt_refl (st : SchedState) : relExt st st := ⟨[], by simp⟩

theorem relExt_of_eq {st st' : SchedState}
    (h : st'.releasedChunks = st.releasedChunks) : relExt st st' :=
  ⟨[], by simp [h]⟩

theorem relExt_trans {a b c : SchedState} (h1 : relExt a b) (h2 : relExt b c) :
    relExt a c := by
  obtain ⟨x, hx⟩ := h1
  obtain ⟨y, hy⟩ := h2
  exact ⟨x ++ y, by rw [hy, hx, List.append_assoc]⟩

theorem relExt_mem {st st' : SchedState} (h : relExt st st') {c : Chunk}
    (hc : c ∈ st.releasedChunks) : c ∈ st'.releasedChunks := by
  obtain ⟨x, hx⟩ := h
  rw [hx, List.mem_append]
  exact Or.inl hc

theorem queueNodeGeneration_released (st : SchedState) (d : NodeData) (k : OKids)
    (v : Bool) (now : ℚ) (ii ip : Bool) :
    (queueNodeGeneration st d k v now ii ip).1.releasedChunks = st.releasedChunks := by
  simp only [queueNodeGeneration]
  repeat' split
  all_goals rfl

theorem queueNodeGeneration_node (st : SchedState) (d : NodeData) (k : OKids)
    (v : Bool) (now : ℚ) (ii ip : Bool) :
    (queueNodeGeneration st d k v now ii ip).2 = d ∨
    (queueNodeGeneration st d k v now ii ip).2 = { d with state := NodeState.GENERATING } := by
  simp only [queueNodeGeneration]
  repeat' split
  all_goals first
    | exact Or.inl rfl
    | exact Or.inr rfl

theorem visitQueue_released (fc : FrameCtx) (st : SchedState) (d2 : NodeData)
    (w : Bool) (k : OKids) :
    (visitQueue fc st d2 w k).1.releasedChunks = st.releasedChunks := by
  have hsecond : ∀ r1 : SchedState × NodeData,
      (visitQueueSecond fc r1 k).1.releasedChunks = r1.1.releasedChunks := by
    intro r1
    rw [visitQueueSecond]
    split
    · rw [queueNodeGeneration_released]
    · rfl
  rw [visitQueue, hsecond]
  split
  · rw [queueNodeGeneration_released]
  · rfl

theorem visitQueue_node (fc : FrameCtx) (st : SchedState) (d2 : NodeData)
    (w : Bool) (k : OKids) :
    (visitQueue fc st d2 w k).2 = d2 ∨
    (visitQueue fc st d2 w k).2 = { d2 with state := NodeState.GENERATING } := by
  have hsecond : ∀ r1 : SchedState × NodeData,
      (visitQueueSecond fc r1 k).2 = r1.2 ∨
      (visitQueueSecond fc r1 k).2 = { r1.2 with state := NodeState.GENERATING } := by
    intro r1
    rw [visitQueueSecond]
    split
    · exact queueNodeGeneration_node r1.1 r1.2 k true fc.now false false
    · exact Or.inl rfl
  rw [visitQueue]
  split
  · rcases hsecond (queueNodeGeneration st d2 k true fc.now) with h2 | h2 <;> rw [h2]
    · exact queueNodeGeneration_node st d2 k true fc.now false false
    · rcases queueNodeGeneration_node st d2 k true fc.now false false with h1 | h1 <;> rw [h1]
      · exact Or.inr rfl
      · exact Or.inr rfl
  · rcases hsecond (st, d2) with h2 | h2 <;> rw [h2]
    · exact Or.inl rfl
    · exact Or.inr rfl

theorem performCullTest_fields (o : ℚ → ℚ → ℚ → ℚ → ℚ) (b : ℚ) (d : NodeData) :
    (performCullTest o b d).isVisible = d.isVisible ∧
    (performCullTest o b d).distanceToCamera = d.distanceToCamera ∧
    (performCullTest o b d).level = d.level ∧
    (performCullTest o b d).size = d.size ∧
    centerOf (performCullTest o b d) = centerOf d ∧
    (performCullTest o b d).chunk = d.chunk ∧
    (performCullTest o b d).state = d.state ∧
    (performCullTest o b d).geometryTested = d.geometryTested ∧
    (performCullTest o b d).hasGeometry = d.hasGeometry := by
  rw [performCullTest]
  split
  · exact ⟨rfl, rfl, rfl, rfl, rfl, rfl, rfl, rfl, rfl⟩
  · exact ⟨rfl, rfl, rfl, rfl, rfl, rfl, rfl, rfl, rfl⟩

theorem visitClassify_fields (fc : FrameCtx) (d4 : NodeData) :
    (visitClassify fc d4).isVisible = d4.isVisible ∧
    (visitClassify fc d4).distanceToCamera = d4.distanceToCamera ∧
    (visitClassify fc d4).level = d4.level ∧
    (visitClassify fc d4).size = d4.size ∧
    centerOf (visitClassify fc d4) = centerOf d4 ∧
    (visitClassify fc d4).chunk = d4.chunk ∧
    (visitClassify fc d4).state = d4.state := by
  rw [visitClassify]
  split
  · split
    · have h := performCullTest_fields fc.orc.densO fc.cfg.isoLevelBias
        { d4 with geometryTested := false, hasGeometry := false,
                  cullState := CullState.UNKNOWN }
      exact ⟨h.1, h.2.1, h.2.2.1, h.2.2.2.1, h.2.2.2.2.1, h.2.2.2.2.2.1, h.2.2.2.2.2.2.1⟩
    · exact ⟨rfl, rfl, rfl, rfl, rfl, rfl, rfl⟩
  · split
    · have h := performCullTest_fields fc.orc.densO fc.cfg.isoLevelBias d4
      exact ⟨h.1, h.2.1, h.2.2.1, h.2.2.2.1, h.2.2.2.2.1, h.2.2.2.2.2.1, h.2.2.2.2.2.2.1⟩
    · exact ⟨rfl, rfl, rfl, rfl, rfl, rfl, rfl⟩

theorem visitSense_fields (fc : FrameCtx) (d : NodeData) :
    (visitSense fc d).1.geometryTested = d.geometryTested ∧
    (visitSense fc d).1.hasGeometry = d.hasGeometry ∧
    (visitSense fc d).1.state = d.state ∧
    (visitSense fc d).1.cullState = d.cullState ∧
    (visitSense fc d).1.chunk = d.chunk ∧
    (visitSense fc d).1.level = d.level ∧
    (visitSense fc d).1.size = d.size ∧
    centerOf (visitSense fc d).1 = centerOf d ∧
    (visitSense fc d).1.distanceToCamera = some (fc.orc.distO (centerOf d)) ∧
    (visitSense fc d).2 = d.isVisible := by
  rw [visitSense]
  split
  · exact ⟨rfl, rfl, rfl, rfl, rfl, rfl, rfl, rfl, rfl, rfl⟩
  · exact ⟨rfl, rfl, rfl, rfl, rfl, rfl, rfl, rfl, rfl, rfl⟩

theorem visitSense_occl_fresh (fc : FrameCtx) (d : NodeData)
    (h : d.lastOcclusionFrame ≠ fc.frameId) :
    (visitSense fc d).1.lastOcclusionResult
      = some (fc.orc.occlO (centerOf d) d.size) := by
  rw [visitSense]
  rw [if_pos (show ({ d with distanceToCamera := some (fc.orc.distO (centerOf d)) } : NodeData).lastOcclusionFrame ≠ fc.frameId from h)]
  rfl

theorem visitSense_isVisible (fc : FrameCtx) (d : NodeData) :
    (visitSense fc d).1.isVisible
      = decide ((visitSense fc d).1.lastOcclusionResult ≠ some FrustumResult.OUTSIDE) := by
  rw [visitSense]

theorem subdivideChild_released (fc : FrameCtx) (st : SchedState) (c : NodeData) :
    (subdivideChild fc st c).2.releasedChunks = st.releasedChunks := by
  rw [subdivideChild]
  split
  · split
    · rw [queueNodeGeneration_released]
    · rfl
  · split
    · rw [queueNodeGeneration_released]
    · rfl

theorem subdivideChildren_released (fc : FrameCtx) (st : SchedState)
    (cs : List NodeData) :
    (subdivideChildren fc st cs).2.releasedChunks = st.releasedChunks := by
  induction cs generalizing st with
  | nil => rfl
  | cons c rest ih =>
    rw [subdivideChildren]
    rw [ih, subdivideChild_released]

mutual
theorem visitTree_relExt (fc : FrameCtx) (pc : Option Bool) (t : OTree)
    (st : SchedState) : relExt st (visitTree fc pc t st).2 := by
  match t with
  | .node d k =>
    simp only [visitTree]
    split
    · exact relExt_refl st
    split
    · exact relExt_of_eq (visitQueue_released fc st _ _ k)
    split
    · exact relExt_of_eq (by rw [subdivideChildren_released, visitQueue_released])
    split
    · split
      · exact relExt_trans
          (relExt_of_eq (visitQueue_released fc st _ _ k)) ⟨_, rfl⟩
      · exact relExt_trans (relExt_of_eq (visitQueue_released fc st _ _ k))
          (visitKids_relExt fc _ k _)
    · exact relExt_trans (relExt_of_eq (visitQueue_released fc st _ _ k))
        (visitKids_relExt fc _ k _)

theorem visitKids_relExt (fc : FrameCtx) (pc : Option Bool) (k : OKids)
    (st : SchedState) : relExt st (visitKids fc pc k st).2 := by
  match k with
  | .noKids => exact relExt_refl st
  | .kids l => exact visitList_relExt fc pc l st

theorem visitList_relExt (fc : FrameCtx) (pc : Option Bool) (l : OList)
    (st : SchedState) : relExt st (visitList fc pc l st).2 := by
  match l with
  | .nil => exact relExt_refl st
  | .cons t ts =>
    exact relExt_trans (visitList_relExt fc pc ts st)
      (visitTree_relExt fc pc t (visitList fc pc ts st).2)
end

theorem visitList_get (fc : FrameCtx) (pc : Option Bool) (l : OList) :
    ∀ (st : SchedState) (i : ℕ) (c : OTree), OList.get? l i = some c →
    ∃ st', (visitList fc pc l st).1.get? i = some (visitTree fc pc c st').1 ∧
      relExt (visitTree fc pc c st').2 (visitList fc pc l st).2 := by
  match l with
  | OList.nil =>
    intro st i c h
    rw [OList.get?] at h
    cases h
  | OList.cons t ts =>
    intro st i c h
    cases i with
    | zero =>
      rw [OList.get?] at h
      injection h with h
      subst h
      refine ⟨(visitList fc pc ts st).2, ?_, ?_⟩
      · simp only [visitList, OList.get?]
      · simp only [visitList]
        exact relExt_refl _
    | succ n =>
      rw [OList.get?] at h
      obtain ⟨st', h1, h2⟩ := visitList_get fc pc ts st n c h
      refine ⟨st', ?_, ?_⟩
      · simp only [visitList, OList.get?]
        exact h1
      · simp only [visitList]
        exact relExt_trans h2 (visitTree_relExt fc pc t (visitList fc pc ts st).2)

theorem get?_chunks : ∀ {l : OList} {i : ℕ} {c : OTree},
    OList.get? l i = some c → ∀ x ∈ collectChunksT c, x ∈ collectChunksL l := by
  intro l
  match l with
  | OList.nil =>
    intro i c h
    rw [OList.get?] at h
    cases h
  | OList.cons t ts =>
    intro i c h
    cases i with
    | zero =>
      rw [OList.get?] at h
      injection h with h
      subst h
      intro x hx
      rw [collectChunksL, List.mem_append]
      exact Or.inl hx
    | succ n =>
      rw [OList.get?] at h
      intro x hx
      rw [collectChunksL, List.mem_append]
      exact Or.inr (get?_chunks h x hx)

theorem kids_chunks {d : NodeData} {k : OKids} :
    ∀ x ∈ collectChunksK k, x ∈ collectChunksT (OTree.node d k) := by
  intro x hx
  rw [collectChunksT, List.mem_append]
  exact Or.inr hx

theorem atPath_chunks {q : List ℕ} : ∀ {t sub : OTree}, OTree.atPath t q = some sub →
    ∀ x ∈ collectChunksT sub, x ∈ collectChunksT t := by
  induction q with
  | nil =>
    intro t sub h x hx
    rw [OTree.atPath] at h
    injection h with h
    subst h
    exact hx
  | cons i q' ih =>
    intro t sub h x hx
    match t with
    | .node d OKids.noKids => rw [OTree.atPath] at h; cases h
    | .node d (OKids.kids l) =>
      rw [OTree.atPath] at h
      cases hget : OList.get? l i with
      | none => rw [hget] at h; cases h
      | some c =>
        rw [hget] at h
        exact kids_chunks x (get?_chunks hget x (ih h x hx))

theorem visit_d6_facts (fc : FrameCtx) (st : SchedState) (d2 : NodeData)
    (w : Bool) (k : OKids) :
    (visitClassify fc (visitQueue fc st d2 w k).2).isVisible = d2.isVisible ∧
    (visitClassify fc (visitQueue fc st d2 w k).2).distanceToCamera = d2.distanceToCamera ∧
    (visitClassify fc (visitQueue fc st d2 w k).2).level = d2.level ∧
    (visitClassify fc (visitQueue fc st d2 w k).2).size = d2.size := by
  rcases visitQueue_node fc st d2 w k with h | h <;> rw [h]
  · have hc := visitClassify_fields fc d2
    exact ⟨hc.1, hc.2.1, hc.2.2.1, hc.2.2.2.1⟩
  · have hc := visitClassify_fields fc { d2 with state := NodeState.GENERATING }
    exact ⟨hc.1, hc.2.1, hc.2.2.1, hc.2.2.2.1⟩

theorem visitTree_culled (fc : FrameCtx) (pc : Option Bool) (d : NodeData)
    (k : OKids) (st : SchedState)
    (hocc : fc.orc.occlO (centerOf d) d.size = FrustumResult.OUTSIDE)
    (hfresh : d.lastOcclusionFrame ≠ fc.frameId) :
    visitTree fc pc (OTree.node d k) st = (OTree.node (visitSense fc d).1 k, st) := by
  simp only [visitTree]
  rw [if_pos (by rw [visitSense_occl_fresh fc d hfresh, hocc])]

theorem visitTree_destroys (fc : FrameCtx) (pc : Option Bool) (d : NodeData)
    (k : OKids) (st : SchedState) (f : ℚ)
    (hocc : fc.orc.occlO (centerOf d) d.size ≠ FrustumResult.OUTSIDE)
    (hfresh : d.lastOcclusionFrame ≠ fc.frameId)
    (hkids : k.isNull = false)
    (hlev : d.level ≠ 0)
    (hfade : fc.cfg.fadeOutEnd d.level = some f)
    (hhyst : d.size * fc.cfg.lodDistanceFactor ≤ f + 50)
    (hdist : f + 50 < fc.orc.distO (centerOf d)) :
    ∃ d' st', visitTree fc pc (OTree.node d k) st = (OTree.node d' OKids.noKids, st') ∧
      st'.releasedChunks = st.releasedChunks ++ collectChunksK k := by
  have hso := visitSense_occl_fresh fc d hfresh
  have hsf := visitSense_fields fc d
  have hqf := visit_d6_facts fc st (visitSense fc d).1 (visitSense fc d).2 k
  have hvis6 : (visitClassify fc (visitQueue fc st (visitSense fc d).1
      (visitSense fc d).2 k).2).isVisible = true := by
    rw [hqf.1, visitSense_isVisible, hso]
    simp [hocc]
  have hlev6 : (visitClassify fc (visitQueue fc st (visitSense fc d).1
      (visitSense fc d).2 k).2).level = d.level := by
    rw [hqf.2.2.1, hsf.2.2.2.2.2.1]
  have hsize6 : (visitClassify fc (visitQueue fc st (visitSense fc d).1
      (visitSense fc d).2 k).2).size = d.size := by
    rw [hqf.2.2.2, hsf.2.2.2.2.2.2.1]
  have hdist6 : (visitClassify fc (visitQueue fc st (visitSense fc d).1
      (visitSense fc d).2 k).2).distanceToCamera
      = some (fc.orc.distO (centerOf d)) := by
    rw [hqf.2.1, hsf.2.2.2.2.2.2.2.2.1]
  simp only [visitTree]
  rw [if_neg (by rw [hso]; simp only [Option.some.injEq]; exact hocc)]
  rw [if_neg (by rw [hvis6]; simp)]
  rw [if_neg (by rw [hkids]; simp)]
  have hcond : (shouldCollapseNode
      (visitClassify fc (visitQueue fc st (visitSense fc d).1 (visitSense fc d).2 k).2)
      (!k.isNull) fc.cfg.lodDistanceFactor && !k.isNull) = true := by
    rw [hkids]
    simp only [Bool.not_false, Bool.and_true]
    rw [shouldCollapseNode]
    rw [if_neg (by rw [hlev6]; simp [hlev])]
    rw [hdist6, hsize6, qge]
    simp only [decide_eq_true_eq]
    linarith
  rw [if_pos hcond]
  have hsafe : (match fc.cfg.fadeOutEnd (visitClassify fc (visitQueue fc st
      (visitSense fc d).1 (visitSense fc d).2 k).2).level with
      | some f2 => qgt (visitClassify fc (visitQueue fc st (visitSense fc d).1
          (visitSense fc d).2 k).2).distanceToCamera (f2 + 50)
      | none => false) = true := by
    rw [hlev6, hfade]
    simp only
    rw [hdist6, qgt]
    simp only [decide_eq_true_eq]
    exact hdist
  rw [if_pos hsafe]
  refine ⟨_, _, rfl, ?_⟩
  show (visitQueue fc st (visitSense fc d).1 (visitSense fc d).2 k).1.releasedChunks
      ++ collectChunksK k = st.releasedChunks ++ collectChunksK k
  rw [visitQueue_released]

theorem visitTree_withKids_cases (fc : FrameCtx) (pc : Option Bool) (d : NodeData)
    (l : OList) (st : SchedState)
    (hocc : fc.orc.occlO (centerOf d) d.size ≠ FrustumResult.OUTSIDE)
    (hfresh : d.lastOcclusionFrame ≠ fc.frameId) :
    (d.level ≠ 0 ∧
      ∃ d' st', visitTree fc pc (OTree.node d (OKids.kids l)) st
        = (OTree.node d' OKids.noKids, st') ∧
      st'.releasedChunks = st.releasedChunks ++ collectChunksK (OKids.kids l)) ∨
    (∃ d' pc' st0, relExt st st0 ∧
      visitTree fc pc (OTree.node d (OKids.kids l)) st
        = (OTree.node d' (OKids.kids (visitList fc pc' l st0).1),
           (visitList fc pc' l st0).2)) := by
  have hso := visitSense_occl_fresh fc d hfresh
  have hsf := visitSense_fields fc d
  have hqf := visit_d6_facts fc st (visitSense fc d).1 (visitSense fc d).2 (OKids.kids l)
  have hvis6 : (visitClassify fc (visitQueue fc st (visitSense fc d).1
      (visitSense fc d).2 (OKids.kids l)).2).isVisible = true := by
    rw [hqf.1, visitSense_isVisible, hso]
    simp [hocc]
  have hlev6 : (visitClassify fc (visitQueue fc st (visitSense fc d).1
      (visitSense fc d).2 (OKids.kids l)).2).level = d.level := by
    rw [hqf.2.2.1, hsf.2.2.2.2.2.1]
  simp only [visitTree]
  rw [if_neg (by rw [hso]; simp only [Option.some.injEq]; exact hocc)]
  rw [if_neg (by rw [hvis6]; simp)]
  rw [if_neg (by simp [OKids.isNull])]
  split
  · rename_i hcond
    split
    · refine Or.inl ⟨?_, _, _, rfl, ?_⟩
      · intro hlv0
        have h1 : shouldCollapseNode (visitClassify fc (visitQueue fc st
            (visitSense fc d).1 (visitSense fc d).2 (OKids.kids l)).2)
            (!(OKids.kids l).isNull) fc.cfg.lodDistanceFactor = true :=
          (Bool.and_eq_true .. ▸ hcond).1
        rw [shouldCollapseNode, if_pos (by rw [hlev6, hlv0]; simp)] at h1
        cases h1
      show (visitQueue fc st (visitSense fc d).1 (visitSense fc d).2
          (OKids.kids l)).1.releasedChunks ++ collectChunksK (OKids.kids l)
          = st.releasedChunks ++ collectChunksK (OKids.kids l)
      rw [visitQueue_released]
    · refine Or.inr ⟨visitClassify fc (visitQueue fc st (visitSense fc d).1
          (visitSense fc d).2 (OKids.kids l)).2,
        some (hasConfirmedGeometry (visitClassify fc (visitQueue fc st
          (visitSense fc d).1 (visitSense fc d).2 (OKids.kids l)).2) pc),
        (visitQueue fc st (visitSense fc d).1 (visitSense fc d).2 (OKids.kids l)).1,
        relExt_of_eq (visitQueue_released fc st (visitSense fc d).1
          (visitSense fc d).2 (OKids.kids l)), ?_⟩
      simp only [visitKids]
  · refine Or.inr ⟨visitClassify fc (visitQueue fc st (visitSense fc d).1
        (visitSense fc d).2 (OKids.kids l)).2,
      some (hasConfirmedGeometry (visitClassify fc (visitQueue fc st
        (visitSense fc d).1 (visitSense fc d).2 (OKids.kids l)).2) pc),
      (visitQueue fc st (visitSense fc d).1 (visitSense fc d).2 (OKids.kids l)).1,
      relExt_of_eq (visitQueue_released fc st (visitSense fc d).1
        (visitSense fc d).2 (OKids.kids l)), ?_⟩
    simp only [visitKids]

theorem collapse_aux (fc : FrameCtx) :
    ∀ (p : List ℕ) (t : OTree) (pc : Option Bool) (st : SchedState) (tgt : OTree),
    OTree.atPath t p = some tgt →
    tgt.kidsOf.isNull = false →
    tgt.data.level ≠ 0 →
    (∀ q t', q <+: p → OTree.atPath t q = some t' →
      fc.orc.occlO (centerOf t'.data) t'.data.size ≠ FrustumResult.OUTSIDE ∧
      t'.data.lastOcclusionFrame ≠ fc.frameId) →
    (∃ f, fc.cfg.fadeOutEnd tgt.data.level = some f ∧
      tgt.data.size * fc.cfg.lodDistanceFactor ≤ f + 50 ∧
      f + 50 < fc.orc.distO (centerOf tgt.data)) →
    (∀ t', (visitTree fc pc t st).1.atPath p = some t' → t'.kidsOf = OKids.noKids) ∧
    (∀ x ∈ collectChunksK tgt.kidsOf, x ∈ (visitTree fc pc t st).2.releasedChunks) := by
  intro p
  induction p with
  | nil =>
    intro t pc st tgt hpath hk hlev hreach hfade
    rw [OTree.atPath] at hpath
    injection hpath with hpath
    subst hpath
    obtain ⟨d, k⟩ := t
    obtain ⟨f, hfade1, hhyst, hdist⟩ := hfade
    have hself := hreach [] (OTree.node d k) List.nil_prefix (by simp [OTree.atPath])
    obtain ⟨d', st', heq, hrel⟩ :=
      visitTree_destroys fc pc d k st f hself.1 hself.2 hk hlev hfade1 hhyst hdist
    constructor
    · intro t' ht'
      rw [heq] at ht'
      rw [OTree.atPath] at ht'
      injection ht' with ht'
      subst ht'
      rfl
    · intro x hx
      rw [heq]
      simp only
      rw [hrel, List.mem_append]
      exact Or.inr hx
  | cons i p' ih =>
    intro t pc st tgt hpath hk hlev hreach hfade
    match t with
    | .node d OKids.noKids =>
      rw [OTree.atPath] at hpath
      cases hpath
    | .node d (OKids.kids l) =>
      rw [OTree.atPath] at hpath
      cases hget : OList.get? l i with
      | none => rw [hget] at hpath; cases hpath
      | some c =>
        rw [hget] at hpath
        have hself := hreach [] (OTree.node d (OKids.kids l)) List.nil_prefix (by simp [OTree.atPath])
        rcases visitTree_withKids_cases fc pc d l st hself.1 hself.2 with
          ⟨hlv0, d', st', heq, hrel⟩ | ⟨d', pc', st0, hst0, heq⟩
        · constructor
          · intro t' ht'
            rw [heq] at ht'
            rw [OTree.atPath] at ht'
            cases ht'
          · intro x hx
            rw [heq]
            simp only
            rw [hrel, List.mem_append]
            right
            obtain ⟨td, tk⟩ := tgt
            exact get?_chunks hget x (atPath_chunks hpath x (kids_chunks x hx))
        · obtain ⟨st1, hg1, hg2⟩ := visitList_get fc pc' l st0 i c hget
          have hreach' : ∀ q t', q <+: p' → OTree.atPath c q = some t' →
              fc.orc.occlO (centerOf t'.data) t'.data.size ≠ FrustumResult.OUTSIDE ∧
              t'.data.lastOcclusionFrame ≠ fc.frameId := by
            intro q t' hq hq2
            refine hreach (i :: q) t' ?_ ?_
            · exact (List.cons_prefix_cons).mpr ⟨rfl, hq⟩
            · rw [OTree.atPath, hget]
              exact hq2
          have IH := ih c pc' st1 tgt hpath hk hlev hreach' hfade
          constructor
          · intro t' ht'
            rw [heq] at ht'
            rw [OTree.atPath] at ht'
            rw [hg1] at ht'
            exact IH.1 t' ht'
          · intro x hx
            rw [heq]
            exact relExt_mem hg2 (IH.2 x hx)

/-- C4 (amended): a subdivided node at level ≥ 1 whose camera distance
exceeds its level's fade-out-end distance plus the 50-unit safety margin has
its children destroyed, and all their chunks released, by a single traversal
of `update` — provided the traversal reaches it: neither the node nor any
ancestor may be classified OUTSIDE by the combined frustum-plus-occlusion
test (a culled node's subtree is pruned and keeps its children), each such
node's occlusion memo must be stale for this frame (fresh frame id), and the
per-level configuration must satisfy the spec's hysteresis property
(collapse distance `fadeOutEnd + 50` at or above the subdivide distance
`size * lodDistanceFactor`).  If an ancestor collapses first, the node
leaves the tree and its chunks are released with it (first conjunct then
holds vacuously). -/
theorem C4_collapse_amended (fc : FrameCtx) (root : OTree) (st : SchedState)
    (p : List ℕ) (tgt : OTree)
    (hpath : root.atPath p = some tgt)
    (hk : tgt.kidsOf.isNull = false)
    (hlev : tgt.data.level ≠ 0)
    (hreach : ∀ q t', q <+: p → root.atPath q = some t' →
      fc.orc.occlO (centerOf t'.data) t'.data.size ≠ FrustumResult.OUTSIDE ∧
      t'.data.lastOcclusionFrame ≠ fc.frameId)
    (hfade : ∃ f, fc.cfg.fadeOutEnd tgt.data.level = some f ∧
      tgt.data.size * fc.cfg.lodDistanceFactor ≤ f + 50 ∧
      f + 50 < fc.orc.distO (centerOf tgt.data)) :
    (∀ t', (updateOctreeStructureIterative fc root st).1.atPath p = some t' →
      t'.kidsOf = OKids.noKids) ∧
    (∀ x ∈ collectChunksK tgt.kidsOf,
      x ∈ (updateOctreeStructureIterative fc root st).2.releasedChunks) :=
  collapse_aux fc p root none { st with enqueuedLog := [] } tgt
    hpath hk hlev hreach hfade

/-- A ready, non-empty chunk, owned by each grandchild of the collapse
witness tree. -/
def c4wchunk : Chunk := { isEmpty := false, state := ChunkState.ready }

/-- A grandchild of the collapse witness tree: a READY leaf that owns
`c4wchunk`. -/
def c4wgrand (cx cy cz : ℚ) : OTree :=
  OTree.node
    { level := 2, centerX := cx, centerY := cy, centerZ := cz, size := 64,
      voxelGridSize := 32, state := NodeState.READY,
      cullState := CullState.GEOMETRY_TESTED, chunk := some c4wchunk,
      geometryTested := true, hasGeometry := true, isVisible := true,
      distanceToCamera := some 1900,
      lastOcclusionResult := some FrustumResult.INTERSECTS,
      lastOcclusionFrame := -1 } OKids.noKids

/-- The eight grandchildren of the collapse witness tree. -/
def c4wtargetKids : OList :=
  OList.cons (c4wgrand (-96) (-96) (-96)) (OList.cons (c4wgrand (-96) (-96) (-32))
    (OList.cons (c4wgrand (-96) (-32) (-96)) (OList.cons (c4wgrand (-96) (-32) (-32))
      (OList.cons (c4wgrand (-32) (-96) (-96)) (OList.cons (c4wgrand (-32) (-96) (-32))
        (OList.cons (c4wgrand (-32) (-32) (-96)) (OList.cons (c4wgrand (-32) (-32) (-32))
          OList.nil)))))))

/-- The node at path `[0]` of the witness tree: a SUBDIVIDED level-1 node
with eight chunk-owning children. -/
def c4wtargetData : NodeData :=
  { level := 1, centerX := -64, centerY := -64, centerZ := -64, size := 128,
    voxelGridSize := 32, state := NodeState.SUBDIVIDED,
    cullState := CullState.GEOMETRY_TESTED, chunk := some c4wchunk,
    geometryTested := true, hasGeometry := true, isVisible := true,
    distanceToCamera := some 1950,
    lastOcclusionResult := some FrustumResult.INTERSECTS,
    lastOcclusionFrame := -1 }

def c4wtarget : OTree := OTree.node c4wtargetData (OKids.kids c4wtargetKids)

/-- A childless sibling of the target under the root. -/
def c4wsib (cx cy cz : ℚ) : OTree :=
  OTree.node
    { level := 1, centerX := cx, centerY := cy, centerZ := cz, size := 128,
      voxelGridSize := 32 } OKids.noKids

/-- The root's child list: the target first, then seven empty siblings. -/
def c4wrootKids : OList :=
  OList.cons c4wtarget (OList.cons (c4wsib (-64) (-64) 64)
    (OList.cons (c4wsib (-64) 64 (-64)) (OList.cons (c4wsib (-64) 64 64)
      (OList.cons (c4wsib 64 (-64) (-64)) (OList.cons (c4wsib 64 (-64) 64)
        (OList.cons (c4wsib 64 64 (-64)) (OList.cons (c4wsib 64 64 64)
          OList.nil)))))))

/-- The root of the witness tree: level 0, subdivided, with a chunk. -/
def c4wrootData : NodeData :=
  { level := 0, centerX := 0, centerY := 0, centerZ := 0, size := 256,
    voxelGridSize := 32, state := NodeState.SUBDIVIDED,
    cullState := CullState.GEOMETRY_TESTED, chunk := some c4wchunk,
    geometryTested := true, hasGeometry := true, isVisible := true,
    distanceToCamera := some 2000,
    lastOcclusionResult := some FrustumResult.INTERSECTS,
    lastOcclusionFrame := -1 }

def c4wroot : OTree := OTree.node c4wrootData (OKids.kids c4wrootKids)

/-- Witness configuration: 5 LOD levels, distance factor 4, and a fade-out
end of 850 at every level, so a level-1 node of size 128 subdivides below
512 and may only collapse beyond 900. -/
def c4wcfg : ManagerConfig :=
  { numLODLevels := 5, lodDistanceFactor := 4, isoLevelBias := 0,
    fadeOutEnd := fun _ => some 850 }

/-- Witness oracles: every node is 2000 units away, nothing is culled, the
density field is uniformly 0 (INTERSECTS). -/
def c4worc : FrameOracles :=
  { distO := fun _ => 2000, occlO := fun _ _ => FrustumResult.INTERSECTS,
    densO := fun _ _ _ _ => 0 }

def c4wfc : FrameCtx := { cfg := c4wcfg, orc := c4worc, frameId := 1, now := 0 }

/-- Counterexample oracles: identical camera, but the frustum/occlusion test
classifies every size-128 box (the target and its siblings) OUTSIDE. -/
def c4xorc : FrameOracles :=
  { distO := fun _ => 2000,
    occlO := fun _ s =>
      if s = 128 then FrustumResult.OUTSIDE else FrustumResult.INTERSECTS,
    densO := fun _ _ _ _ => 0 }

def c4xfc : FrameCtx := { cfg := c4wcfg, orc := c4xorc, frameId := 1, now := 0 }

/-- C4 (witness): on the concrete tree `c4wroot`, whose node at path `[0]`
is subdivided at distance 2000, beyond `fadeOutEnd 850 + 50`, a single
`updateOctreeStructureIterative` call releases the grandchildren's chunk. -/
theorem C4_collapse_amended_witness :
    c4wchunk ∈ (updateOctreeStructureIterative c4wfc c4wroot {}).2.releasedChunks := by
  have h := C4_collapse_amended c4wfc c4wroot {} [0] c4wtarget
    (by simp [c4wroot, OTree.atPath, c4wrootKids, OList.get?, c4wtarget])
    (by simp [c4wtarget, OTree.kidsOf, OKids.isNull])
    (by simp [c4wtarget, c4wtargetData, OTree.data])
    (by
      intro q t' hq hq2
      have hcases : q = [] ∨ q = [0] := by
        rcases q with _ | ⟨j, q2⟩
        · exact Or.inl rfl
        · obtain ⟨hj, hq2'⟩ := List.cons_prefix_cons.mp hq
          subst hj
          rw [List.prefix_nil.mp hq2']
          exact Or.inr rfl
      rcases hcases with hq0 | hq0 <;> subst hq0
      · simp only [OTree.atPath, Option.some.injEq] at hq2
        subst hq2
        constructor
        · simp [c4wfc, c4worc]
        · norm_num [c4wroot, c4wrootData, OTree.data, c4wfc]
      · simp only [c4wroot, OTree.atPath, c4wrootKids, OList.get?,
          Option.some.injEq] at hq2
        subst hq2
        constructor
        · simp [c4wfc, c4worc]
        · norm_num [c4wtarget, c4wtargetData, OTree.data, c4wfc])
    ⟨850, rfl,
      by norm_num [c4wtarget, c4wtargetData, OTree.data, c4wfc, c4wcfg],
      by norm_num [c4wtarget, c4wtargetData, OTree.data, centerOf, c4wfc, c4worc]⟩
  exact h.2 c4wchunk
    (by simp [c4wtarget, OTree.kidsOf, collectChunksK, collectChunksL,
      collectChunksT, c4wtargetKids, c4wgrand])

/-- C4 (counterexample): the node at path `[0]` of `c4wroot` is subdivided,
at level 1, with camera distance 2000 beyond `fadeOutEnd 850 + 50 = 900` and
above its own collapse distance 512 — the claim's premises — yet under the
oracle `c4xorc` the node's box is classified OUTSIDE this frame, so one
`updateOctreeStructureIterative` call prunes the visit at the node and its
children survive intact: the collapse the claim promises does not happen. -/
theorem C4_counterexample :
    c4wroot.atPath [0] = some c4wtarget ∧
    c4wtarget.kidsOf.isNull = false ∧
    c4wtarget.data.level ≠ 0 ∧
    (∃ f, c4xfc.cfg.fadeOutEnd c4wtarget.data.level = some f ∧
      c4wtarget.data.size * c4xfc.cfg.lodDistanceFactor ≤ f + 50 ∧
      f + 50 < c4xfc.orc.distO (centerOf c4wtarget.data)) ∧
    ∃ t', (updateOctreeStructureIterative c4xfc c4wroot {}).1.atPath [0] = some t' ∧
      t'.kidsOf.isNull = false := by
  refine ⟨by simp [c4wroot, OTree.atPath, c4wrootKids, OList.get?, c4wtarget],
    by simp [c4wtarget, OTree.kidsOf, OKids.isNull],
    by simp [c4wtarget, c4wtargetData, OTree.data],
    ⟨850, rfl,
      by norm_num [c4wtarget, c4wtargetData, OTree.data, c4xfc, c4wcfg],
      by norm_num [c4wtarget, c4wtargetData, OTree.data, centerOf, c4xfc, c4xorc]⟩,
    ?_⟩
  have hoccR : c4xfc.orc.occlO (centerOf c4wrootData) c4wrootData.size
      ≠ FrustumResult.OUTSIDE := by
    show (if ((256 : ℚ)) = 128 then FrustumResult.OUTSIDE
      else FrustumResult.INTERSECTS) ≠ FrustumResult.OUTSIDE
    rw [if_neg (by norm_num)]
    simp
  have hfreshR : c4wrootData.lastOcclusionFrame ≠ c4xfc.frameId := by
    norm_num [c4wrootData, c4xfc]
  have hupd : updateOctreeStructureIterative c4xfc c4wroot {} =
      visitTree c4xfc none (OTree.node c4wrootData (OKids.kids c4wrootKids))
        { (({} : SchedState)) with enqueuedLog := [] } := rfl
  rcases visitTree_withKids_cases c4xfc none c4wrootData c4wrootKids
      { (({} : SchedState)) with enqueuedLog := [] } hoccR hfreshR with
    ⟨hlv0, _⟩ | ⟨d', pc', stx, _, heq⟩
  · exact absurd (by simp [c4wrootData]) hlv0
  · obtain ⟨st', hget, _⟩ := visitList_get c4xfc pc' c4wrootKids stx 0 c4wtarget
      (by simp [c4wrootKids, OList.get?])
    have hcull := visitTree_culled c4xfc pc' c4wtargetData (OKids.kids c4wtargetKids) st'
      (by
        show (if ((128 : ℚ)) = 128 then FrustumResult.OUTSIDE
          else FrustumResult.INTERSECTS) = FrustumResult.OUTSIDE
        rw [if_pos rfl])
      (by norm_num [c4wtargetData, c4xfc])
    rw [show c4wtarget = OTree.node c4wtargetData (OKids.kids c4wtargetKids) from rfl,
      hcull] at hget
    refine ⟨OTree.node (visitSense c4xfc c4wtargetData).1 (OKids.kids c4wtargetKids),
      ?_, rfl⟩
    rw [hupd, heq]
    simp only [OTree.atPath]
    rw [hget]

/-- The value of `visitSense` on a node whose occlusion memo is stale
(`lastOcclusionFrame !== frameId`): distance and occlusion are recomputed
and visibility follows the fresh occlusion result (the equation is
`visitSense_eq_of_fresh`). -/
def senseNode (fc : FrameCtx) (d : NodeData) : NodeData :=
  { d with distanceToCamera := some (fc.orc.distO (centerOf d)),
           lastOcclusionResult := some (fc.orc.occlO (centerOf d) d.size),
           lastOcclusionFrame := fc.frameId,
           isVisible := decide (some (fc.orc.occlO (centerOf d) d.size)
             ≠ some FrustumResult.OUTSIDE) }

theorem visitSense_eq_of_fresh (fc : FrameCtx) (d : NodeData)
    (h : d.lastOcclusionFrame ≠ fc.frameId) :
    visitSense fc d = (senseNode fc d, d.isVisible) := by
  have h0 : ({ d with distanceToCamera := some (fc.orc.distO (centerOf d)) } : NodeData).lastOcclusionFrame ≠ fc.frameId := h
  simp only [visitSense]
  rw [if_pos h0]
  rfl

theorem visitQueue_of_tested (fc : FrameCtx) (st : SchedState) (d2 : NodeData)
    (w : Bool) (k : OKids) (h : d2.geometryTested = true) :
    visitQueue fc st d2 w k = (st, d2) := by
  rw [visitQueue, if_neg (by simp [h]), visitQueueSecond, if_neg (by simp [h])]

theorem visitQueue_of_mem (fc : FrameCtx) (st : SchedState) (d2 : NodeData)
    (w : Bool) (k : OKids) (h : nodeKey d2 ∈ st.pending) :
    visitQueue fc st d2 w k = (st, d2) := by
  rw [visitQueue, if_neg (by simp [h]), visitQueueSecond, if_neg (by simp [h])]

theorem queueNodeGeneration_of_state (st : SchedState) (d : NodeData) (k : OKids)
    (v : Bool) (now : ℚ) (ii ip : Bool)
    (h : d.state = NodeState.GENERATING ∨ d.state = NodeState.READY ∨
      d.state = NodeState.CULLED) :
    queueNodeGeneration st d k v now ii ip = (st, d) := by
  rw [queueNodeGeneration, if_pos (Or.inr h)]

theorem visitQueue_of_state (fc : FrameCtx) (st : SchedState) (d2 : NodeData)
    (w : Bool) (k : OKids)
    (h : d2.state = NodeState.GENERATING ∨ d2.state = NodeState.READY ∨
      d2.state = NodeState.CULLED) :
    visitQueue fc st d2 w k = (st, d2) := by
  rw [visitQueue]
  split
  · rw [queueNodeGeneration_of_state st d2 k true fc.now false false h,
      visitQueueSecond]
    split
    · exact queueNodeGeneration_of_state st d2 k true fc.now false false h
    · rfl
  · rw [visitQueueSecond]
    split
    · exact queueNodeGeneration_of_state st d2 k true fc.now false false h
    · rfl

theorem isEssentialDependency_noKids (d : NodeData) :
    isEssentialDependency d OKids.noKids = false := by
  rw [isEssentialDependency]
  split
  · rfl
  · rfl

theorem queueNodeGeneration_accepts_empty (st : SchedState) (d : NodeData)
    (v : Bool) (now : ℚ)
    (hpend : st.pending = ∅) (hgen : st.generationQueue = [])
    (hstate : d.state = NodeState.EMPTY ∨ d.state = NodeState.SUBDIVIDED) :
    ∃ r : GenRequest,
      queueNodeGeneration st d OKids.noKids v now
        = ({ st with generationQueue := [r], pending := insert (nodeKey d) ∅, enqueuedLog := st.enqueuedLog ++ [r] },
           { d with state := NodeState.GENERATING }) := by
  have hE := isEssentialDependency_noKids d
  refine ⟨{ node := nodeKey d, level := d.level, priority := calculatePriority d v false false, isVisible := v, timestamp := now, isInitial := false, isPredictive := false, isEssentialDependency := isEssentialDependency d OKids.noKids || false }, ?_⟩
  simp only [queueNodeGeneration]
  rw [if_neg (by rcases hstate with h | h <;> simp [hpend, h])]
  rw [if_neg (by simp [hE])]
  rw [if_neg (by simp [hgen, MAX_LOCAL_QUEUE_SIZE])]
  rw [if_neg (by simp [hE])]
  rw [if_neg Bool.false_ne_true]
  rw [hgen, hpend]
  simp only [insertRegular]

theorem visitQueue_untested_empty (fc : FrameCtx) (st : SchedState) (d2 : NodeData)
    (w : Bool)
    (hv : d2.isVisible = true) (ht : d2.geometryTested = false)
    (hpend : st.pending = ∅) (hgen : st.generationQueue = [])
    (hstate : d2.state = NodeState.EMPTY ∨ d2.state = NodeState.SUBDIVIDED) :
    ∃ r : GenRequest,
      visitQueue fc st d2 w OKids.noKids
        = ({ st with generationQueue := [r], pending := insert (nodeKey d2) ∅, enqueuedLog := st.enqueuedLog ++ [r] },
           { d2 with state := NodeState.GENERATING }) := by
  obtain ⟨r, hr⟩ := queueNodeGeneration_accepts_empty st d2 true fc.now hpend hgen hstate
  refine ⟨r, ?_⟩
  rw [visitQueue]
  cases w with
  | false =>
    rw [if_pos (by simp [hv, ht, hpend])]
    rw [hr, visitQueueSecond]
    rw [if_neg (by simp [nodeKey])]
  | true =>
    rw [if_neg (by simp)]
    rw [visitQueueSecond]
    rw [if_pos (by simp [hv, ht, hpend])]
    exact hr

theorem performCullTest_occl (o : ℚ → ℚ → ℚ → ℚ → ℚ) (b : ℚ) (d : NodeData) :
    (performCullTest o b d).lastOcclusionResult = d.lastOcclusionResult ∧
    (performCullTest o b d).lastOcclusionFrame = d.lastOcclusionFrame := by
  rw [performCullTest]
  split
  · exact ⟨rfl, rfl⟩
  · exact ⟨rfl, rfl⟩

theorem visitClassify_occl (fc : FrameCtx) (d4 : NodeData) :
    (visitClassify fc d4).lastOcclusionResult = d4.lastOcclusionResult ∧
    (visitClassify fc d4).lastOcclusionFrame = d4.lastOcclusionFrame := by
  simp only [visitClassify]
  split
  · split
    · have hp := performCullTest_occl fc.orc.densO fc.cfg.isoLevelBias
        { d4 with geometryTested := false, hasGeometry := false,
                  cullState := CullState.UNKNOWN }
      exact ⟨hp.1, hp.2⟩
    · exact ⟨rfl, rfl⟩
  · split
    · have hp := performCullTest_occl fc.orc.densO fc.cfg.isoLevelBias d4
      exact ⟨hp.1, hp.2⟩
    · exact ⟨rfl, rfl⟩

theorem visitClassify_no_reset (fc : FrameCtx) (d4 : NodeData)
    (h : (d4.isVisible && d4.geometryTested && !d4.hasGeometry) = false) :
    (visitClassify fc d4).geometryTested = d4.geometryTested ∧
    (visitClassify fc d4).hasGeometry = d4.hasGeometry ∧
    (visitClassify fc d4).state = d4.state := by
  simp only [visitClassify]
  rw [h, if_neg Bool.false_ne_true]
  split
  · have hp := performCullTest_fields fc.orc.densO fc.cfg.isoLevelBias d4
    exact ⟨hp.2.2.2.2.2.2.2.1, hp.2.2.2.2.2.2.2.2, hp.2.2.2.2.2.2.1⟩
  · exact ⟨rfl, rfl, rfl⟩

theorem visitClassify_reset (fc : FrameCtx) (d4 : NodeData)
    (h : (d4.isVisible && d4.geometryTested && !d4.hasGeometry) = true) :
    (visitClassify fc d4).geometryTested = false ∧
    (visitClassify fc d4).hasGeometry = false ∧
    (visitClassify fc d4).state = d4.state := by
  simp only [visitClassify]
  rw [h, if_pos rfl]
  split
  · have hp := performCullTest_fields fc.orc.densO fc.cfg.isoLevelBias
      { d4 with geometryTested := false, hasGeometry := false,
                cullState := CullState.UNKNOWN }
    exact ⟨hp.2.2.2.2.2.2.2.1, hp.2.2.2.2.2.2.2.2, hp.2.2.2.2.2.2.1⟩
  · exact ⟨rfl, rfl, rfl⟩

theorem performCullTest_const0 (d : NodeData) (h : d.cullState = CullState.UNKNOWN) :
    performCullTest (fun _ _ _ _ => (0 : ℚ)) 0 d
      = { d with cullState := CullState.INTERSECTS } := by
  rw [performCullTest, if_neg (by simp [h])]
  norm_num [List.countP_cons, List.countP_nil, List.length_cons, List.length_nil]

theorem shouldSubdivide_far (d : NodeData) (c : Bool) (m : ℕ) (f dist : ℚ)
    (hd : d.distanceToCamera = some dist) (h : ¬ dist < d.size * f) :
    shouldSubdivide d c m f = false := by
  rw [shouldSubdivide]
  split
  · rfl
  · split
    · rfl
    · rw [hd]
      simp only [qlt]
      simp [h]

theorem visitTree_leaf (fc : FrameCtx) (pc : Option Bool) (d : NodeData)
    (st st2 : SchedState) (d3 : NodeData)
    (hocc : (visitSense fc d).1.lastOcclusionResult ≠ some FrustumResult.OUTSIDE)
    (hq : visitQueue fc st (visitSense fc d).1 (visitSense fc d).2 OKids.noKids
        = (st2, d3))
    (hsub : (shouldSubdivide (visitClassify fc d3)
          (hasConfirmedGeometry (visitClassify fc d3) pc)
          (maxLevelOf fc.cfg) fc.cfg.lodDistanceFactor
        && OKids.noKids.isNull
        && (visitClassify fc d3).geometryTested
        && (visitClassify fc d3).hasGeometry) = false) :
    visitTree fc pc (OTree.node d OKids.noKids) st
      = (OTree.node (visitClassify fc d3) OKids.noKids, st2) := by
  simp only [visitTree]
  rw [if_neg hocc, hq]
  split
  · rfl
  · split
    · rename_i hc
      exact absurd (hsub.symm.trans hc) Bool.false_ne_true
    · split
      · rename_i hc2
        simp [OKids.isNull] at hc2
      · simp only [visitKids]

theorem visitTree_culled_fresh (fc : FrameCtx) (pc : Option Bool) (d : NodeData)
    (k : OKids) (st : SchedState)
    (hocc : fc.orc.occlO (centerOf d) d.size = FrustumResult.OUTSIDE)
    (hfresh : d.lastOcclusionFrame ≠ fc.frameId) :
    visitTree fc pc (OTree.node d k) st
      = (OTree.node (senseNode fc d) k, st) := by
  rw [visitTree_culled fc pc d k st hocc hfresh,
    visitSense_eq_of_fresh fc d hfresh]

theorem c2_compose (fc1 fc2 : FrameCtx) (d e : NodeData) (S1 : SchedState)
    (R2 : OTree × SchedState)
    (h1 : updateOctreeStructureIterative fc1 (OTree.node d OKids.noKids) {}
        = (OTree.node e OKids.noKids, S1))
    (h2 : updateOctreeStructureIterative fc2 (OTree.node e OKids.noKids) S1 = R2) :
    (updateOctreeStructureIterative fc2
      (updateOctreeStructureIterative fc1 (OTree.node d OKids.noKids) {}).1
      (updateOctreeStructureIterative fc1 (OTree.node d OKids.noKids) {}).2).2.enqueuedLog
    = R2.2.enqueuedLog := by
  rw [h1]
  show (updateOctreeStructureIterative fc2 (OTree.node e OKids.noKids) S1).2.enqueuedLog
    = R2.2.enqueuedLog
  rw [h2]

theorem c2_aux_culled (fc1 fc2 : FrameCtx) (d : NodeData)
    (horc : fc1.orc = fc2.orc)
    (hfresh : d.lastOcclusionFrame ≠ fc1.frameId)
    (hframe : fc1.frameId ≠ fc2.frameId)
    (hocc : fc1.orc.occlO (centerOf d) d.size = FrustumResult.OUTSIDE) :
    (updateOctreeStructureIterative fc2
      (updateOctreeStructureIterative fc1 (OTree.node d OKids.noKids) {}).1
      (updateOctreeStructureIterative fc1 (OTree.node d OKids.noKids) {}).2).2.enqueuedLog
    = [] := by
  have h1 : updateOctreeStructureIterative fc1 (OTree.node d OKids.noKids) {}
      = (OTree.node (senseNode fc1 d) OKids.noKids, ({} : SchedState)) := by
    rw [updateOctreeStructureIterative]
    exact visitTree_culled_fresh fc1 none d OKids.noKids _ hocc hfresh
  have hocc2 : fc2.orc.occlO (centerOf (senseNode fc1 d)) (senseNode fc1 d).size
      = FrustumResult.OUTSIDE := by
    rw [← horc]; exact hocc
  have hfresh2 : (senseNode fc1 d).lastOcclusionFrame ≠ fc2.frameId := hframe
  have h2 : updateOctreeStructureIterative fc2
      (OTree.node (senseNode fc1 d) OKids.noKids) ({} : SchedState)
      = (OTree.node (senseNode fc2 (senseNode fc1 d)) OKids.noKids,
         ({} : SchedState)) := by
    rw [updateOctreeStructureIterative]
    exact visitTree_culled_fresh fc2 none (senseNode fc1 d) OKids.noKids _ hocc2 hfresh2
  rw [c2_compose fc1 fc2 d (senseNode fc1 d) ({} : SchedState) _ h1 h2]

theorem c2_aux_tested (fc1 fc2 : FrameCtx) (d : NodeData)
    (horc : fc1.orc = fc2.orc)
    (hfresh : d.lastOcclusionFrame ≠ fc1.frameId)
    (hframe : fc1.frameId ≠ fc2.frameId)
    (hfar1 : ¬ fc1.orc.distO (centerOf d) < d.size * fc1.cfg.lodDistanceFactor)
    (hfar2 : ¬ fc2.orc.distO (centerOf d) < d.size * fc2.cfg.lodDistanceFactor)
    (hocc : fc1.orc.occlO (centerOf d) d.size ≠ FrustumResult.OUTSIDE)
    (ht : d.geometryTested = true) (hg : d.hasGeometry = true) :
    (updateOctreeStructureIterative fc2
      (updateOctreeStructureIterative fc1 (OTree.node d OKids.noKids) {}).1
      (updateOctreeStructureIterative fc1 (OTree.node d OKids.noKids) {}).2).2.enqueuedLog
    = [] := by
  have hs1 := visitSense_eq_of_fresh fc1 d hfresh
  have hocc1 : (visitSense fc1 d).1.lastOcclusionResult ≠ some FrustumResult.OUTSIDE := by
    rw [hs1]; simp [senseNode, hocc]
  have htS : (visitSense fc1 d).1.geometryTested = true := by
    rw [hs1]; exact ht
  have hq1 : visitQueue fc1 ({} : SchedState) (visitSense fc1 d).1
      (visitSense fc1 d).2 OKids.noKids = (({} : SchedState), (visitSense fc1 d).1) :=
    visitQueue_of_tested fc1 {} _ _ _ htS
  have hcnr1 : ((visitSense fc1 d).1.isVisible && (visitSense fc1 d).1.geometryTested
      && !(visitSense fc1 d).1.hasGeometry) = false := by
    rw [hs1]; simp [senseNode, hg]
  have hnr1 := visitClassify_no_reset fc1 (visitSense fc1 d).1 hcnr1
  have hdist1 : (visitClassify fc1 (visitSense fc1 d).1).distanceToCamera
      = some (fc1.orc.distO (centerOf d)) := by
    rw [(visitClassify_fields fc1 _).2.1, hs1]
    rfl
  have hsize1 : (visitClassify fc1 (visitSense fc1 d).1).size = d.size := by
    rw [(visitClassify_fields fc1 _).2.2.2.1, hs1]
    rfl
  have hsubF1 : shouldSubdivide (visitClassify fc1 (visitSense fc1 d).1)
      (hasConfirmedGeometry (visitClassify fc1 (visitSense fc1 d).1) none)
      (maxLevelOf fc1.cfg) fc1.cfg.lodDistanceFactor = false := by
    refine shouldSubdivide_far _ _ _ _ (fc1.orc.distO (centerOf d)) hdist1 ?_
    rw [hsize1]; exact hfar1
  have hsub1 : (shouldSubdivide (visitClassify fc1 (visitSense fc1 d).1)
        (hasConfirmedGeometry (visitClassify fc1 (visitSense fc1 d).1) none)
        (maxLevelOf fc1.cfg) fc1.cfg.lodDistanceFactor
      && OKids.noKids.isNull
      && (visitClassify fc1 (visitSense fc1 d).1).geometryTested
      && (visitClassify fc1 (visitSense fc1 d).1).hasGeometry) = false := by
    rw [hsubF1]; simp
  have h1 : updateOctreeStructureIterative fc1 (OTree.node d OKids.noKids) {}
      = (OTree.node (visitClassify fc1 (visitSense fc1 d).1) OKids.noKids,
         ({} : SchedState)) := by
    rw [updateOctreeStructureIterative]
    exact visitTree_leaf fc1 none d _ _ _ hocc1 hq1 hsub1
  have hte1 : (visitClassify fc1 (visitSense fc1 d).1).geometryTested = true := by
    rw [hnr1.1, hs1]; exact ht
  have hge1 : (visitClassify fc1 (visitSense fc1 d).1).hasGeometry = true := by
    rw [hnr1.2.1, hs1]; exact hg
  have hfr1 : (visitClassify fc1 (visitSense fc1 d).1).lastOcclusionFrame
      = fc1.frameId := by
    rw [(visitClassify_occl fc1 _).2, hs1]
    rfl
  have hctr1 : centerOf (visitClassify fc1 (visitSense fc1 d).1) = centerOf d := by
    rw [(visitClassify_fields fc1 _).2.2.2.2.1, hs1]
    rfl
  have hfresh2 : (visitClassify fc1 (visitSense fc1 d).1).lastOcclusionFrame
      ≠ fc2.frameId := by
    rw [hfr1]; exact hframe
  have hs2 := visitSense_eq_of_fresh fc2 (visitClassify fc1 (visitSense fc1 d).1) hfresh2
  have hocc2 : fc2.orc.occlO (centerOf (visitClassify fc1 (visitSense fc1 d).1))
      (visitClassify fc1 (visitSense fc1 d).1).size ≠ FrustumResult.OUTSIDE := by
    rw [hctr1, hsize1, ← horc]; exact hocc
  have hocc2s : (visitSense fc2 (visitClassify fc1 (visitSense fc1 d).1)).1.lastOcclusionResult
      ≠ some FrustumResult.OUTSIDE := by
    rw [hs2]; simpa [senseNode] using hocc2
  have htS2 : (visitSense fc2 (visitClassify fc1 (visitSense fc1 d).1)).1.geometryTested
      = true := by
    rw [hs2]; exact hte1
  have hq2 : visitQueue fc2 ({} : SchedState)
      (visitSense fc2 (visitClassify fc1 (visitSense fc1 d).1)).1
      (visitSense fc2 (visitClassify fc1 (visitSense fc1 d).1)).2 OKids.noKids
      = (({} : SchedState), (visitSense fc2 (visitClassify fc1 (visitSense fc1 d).1)).1) :=
    visitQueue_of_tested fc2 {} _ _ _ htS2
  have hcnr2 : ((visitSense fc2 (visitClassify fc1 (visitSense fc1 d).1)).1.isVisible
      && (visitSense fc2 (visitClassify fc1 (visitSense fc1 d).1)).1.geometryTested
      && !(visitSense fc2 (visitClassify fc1 (visitSense fc1 d).1)).1.hasGeometry) = false := by
    rw [hs2]; simp [senseNode, hge1]
  have hnr2 := visitClassify_no_reset fc2
    (visitSense fc2 (visitClassify fc1 (visitSense fc1 d).1)).1 hcnr2
  have hdist2 : (visitClassify fc2
      (visitSense fc2 (visitClassify fc1 (visitSense fc1 d).1)).1).distanceToCamera
      = some (fc2.orc.distO (centerOf d)) := by
    rw [(visitClassify_fields fc2 _).2.1, hs2]
    show some (fc2.orc.distO (centerOf (visitClassify fc1 (visitSense fc1 d).1)))
      = some (fc2.orc.distO (centerOf d))
    rw [hctr1]
  have hsize2 : (visitClassify fc2
      (visitSense fc2 (visitClassify fc1 (visitSense fc1 d).1)).1).size = d.size := by
    rw [(visitClassify_fields fc2 _).2.2.2.1, hs2]
    show (visitClassify fc1 (visitSense fc1 d).1).size = d.size
    exact hsize1
  have hsubF2 : shouldSubdivide (visitClassify fc2
        (visitSense fc2 (visitClassify fc1 (visitSense fc1 d).1)).1)
      (hasConfirmedGeometry (visitClassify fc2
        (visitSense fc2 (visitClassify fc1 (visitSense fc1 d).1)).1) none)
      (maxLevelOf fc2.cfg) fc2.cfg.lodDistanceFactor = false := by
    refine shouldSubdivide_far _ _ _ _ (fc2.orc.distO (centerOf d)) hdist2 ?_
    rw [hsize2]; exact hfar2
  have hsub2 : (shouldSubdivide (visitClassify fc2
        (visitSense fc2 (visitClassify fc1 (visitSense fc1 d).1)).1)
        (hasConfirmedGeometry (visitClassify fc2
          (visitSense fc2 (visitClassify fc1 (visitSense fc1 d).1)).1) none)
        (maxLevelOf fc2.cfg) fc2.cfg.lodDistanceFactor
      && OKids.noKids.isNull
      && (visitClassify fc2
        (visitSense fc2 (visitClassify fc1 (visitSense fc1 d).1)).1).geometryTested
      && (visitClassify fc2
        (visitSense fc2 (visitClassify fc1 (visitSense fc1 d).1)).1).hasGeometry) = false := by
    rw [hsubF2]; simp
  have h2 : updateOctreeStructureIterative fc2
      (OTree.node (visitClassify fc1 (visitSense fc1 d).1) OKids.noKids)
      ({} : SchedState)
      = (OTree.node (visitClassify fc2
          (visitSense fc2 (visitClassify fc1 (visitSense fc1 d).1)).1) OKids.noKids,
         ({} : SchedState)) := by
    rw [updateOctreeStructureIterative]
    exact visitTree_leaf fc2 none _ _ _ _ hocc2s hq2 hsub2
  rw [c2_compose fc1 fc2 d (visitClassify fc1 (visitSense fc1 d).1)
    ({} : SchedState) _ h1 h2]

theorem c2_aux_state (fc1 fc2 : FrameCtx) (d : NodeData)
    (horc : fc1.orc = fc2.orc)
    (hfresh : d.lastOcclusionFrame ≠ fc1.frameId)
    (hframe : fc1.frameId ≠ fc2.frameId)
    (hocc : fc1.orc.occlO (centerOf d) d.size ≠ FrustumResult.OUTSIDE)
    (ht : d.geometryTested = false)
    (hstate : d.state = NodeState.GENERATING ∨ d.state = NodeState.READY ∨
      d.state = NodeState.CULLED) :
    (updateOctreeStructureIterative fc2
      (updateOctreeStructureIterative fc1 (OTree.node d OKids.noKids) {}).1
      (updateOctreeStructureIterative fc1 (OTree.node d OKids.noKids) {}).2).2.enqueuedLog
    = [] := by
  have hs1 := visitSense_eq_of_fresh fc1 d hfresh
  have hocc1 : (visitSense fc1 d).1.lastOcclusionResult ≠ some FrustumResult.OUTSIDE := by
    rw [hs1]; simp [senseNode, hocc]
  have hstS : (visitSense fc1 d).1.state = NodeState.GENERATING ∨
      (visitSense fc1 d).1.state = NodeState.READY ∨
      (visitSense fc1 d).1.state = NodeState.CULLED := by
    rw [hs1]; exact hstate
  have hq1 : visitQueue fc1 ({} : SchedState) (visitSense fc1 d).1
      (visitSense fc1 d).2 OKids.noKids = (({} : SchedState), (visitSense fc1 d).1) :=
    visitQueue_of_state fc1 {} _ _ _ hstS
  have hcnr1 : ((visitSense fc1 d).1.isVisible && (visitSense fc1 d).1.geometryTested
      && !(visitSense fc1 d).1.hasGeometry) = false := by
    rw [hs1]; simp [senseNode, ht]
  have hnr1 := visitClassify_no_reset fc1 (visitSense fc1 d).1 hcnr1
  have hte1 : (visitClassify fc1 (visitSense fc1 d).1).geometryTested = false := by
    rw [hnr1.1, hs1]; exact ht
  have hsub1 : (shouldSubdivide (visitClassify fc1 (visitSense fc1 d).1)
        (hasConfirmedGeometry (visitClassify fc1 (visitSense fc1 d).1) none)
        (maxLevelOf fc1.cfg) fc1.cfg.lodDistanceFactor
      && OKids.noKids.isNull
      && (visitClassify fc1 (visitSense fc1 d).1).geometryTested
      && (visitClassify fc1 (visitSense fc1 d).1).hasGeometry) = false := by
    rw [hte1]; simp
  have h1 : updateOctreeStructureIterative fc1 (OTree.node d OKids.noKids) {}
      = (OTree.node (visitClassify fc1 (visitSense fc1 d).1) OKids.noKids,
         ({} : SchedState)) := by
    rw [updateOctreeStructureIterative]
    exact visitTree_leaf fc1 none d _ _ _ hocc1 hq1 hsub1
  have hst1 : (visitClassify fc1 (visitSense fc1 d).1).state = d.state := by
    rw [hnr1.2.2, hs1]
    rfl
  have hfr1 : (visitClassify fc1 (visitSense fc1 d).1).lastOcclusionFrame
      = fc1.frameId := by
    rw [(visitClassify_occl fc1 _).2, hs1]
    rfl
  have hctr1 : centerOf (visitClassify fc1 (visitSense fc1 d).1) = centerOf d := by
    rw [(visitClassify_fields fc1 _).2.2.2.2.1, hs1]
    rfl
  have hsz1 : (visitClassify fc1 (visitSense fc1 d).1).size = d.size := by
    rw [(visitClassify_fields fc1 _).2.2.2.1, hs1]
    rfl
  have hfresh2 : (visitClassify fc1 (visitSense fc1 d).1).lastOcclusionFrame
      ≠ fc2.frameId := by
    rw [hfr1]; exact hframe
  have hs2 := visitSense_eq_of_fresh fc2 (visitClassify fc1 (visitSense fc1 d).1) hfresh2
  have hocc2 : fc2.orc.occlO (centerOf (visitClassify fc1 (visitSense fc1 d).1))
      (visitClassify fc1 (visitSense fc1 d).1).size ≠ FrustumResult.OUTSIDE := by
    rw [hctr1, hsz1, ← horc]; exact hocc
  have hocc2s : (visitSense fc2 (visitClassify fc1 (visitSense fc1 d).1)).1.lastOcclusionResult
      ≠ some FrustumResult.OUTSIDE := by
    rw [hs2]; simpa [senseNode] using hocc2
  have hstS2 : (visitSense fc2 (visitClassify fc1 (visitSense fc1 d).1)).1.state
        = NodeState.GENERATING ∨
      (visitSense fc2 (visitClassify fc1 (visitSense fc1 d).1)).1.state
        = NodeState.READY ∨
      (visitSense fc2 (visitClassify fc1 (visitSense fc1 d).1)).1.state
        = NodeState.CULLED := by
    rw [hs2]
    show (visitClassify fc1 (visitSense fc1 d).1).state = NodeState.GENERATING ∨
      (visitClassify fc1 (visitSense fc1 d).1).state = NodeState.READY ∨
      (visitClassify fc1 (visitSense fc1 d).1).state = NodeState.CULLED
    rw [hst1]
    exact hstate
  have hq2 : visitQueue fc2 ({} : SchedState)
      (visitSense fc2 (visitClassify fc1 (visitSense fc1 d).1)).1
      (visitSense fc2 (visitClassify fc1 (visitSense fc1 d).1)).2 OKids.noKids
      = (({} : SchedState), (visitSense fc2 (visitClassify fc1 (visitSense fc1 d).1)).1) :=
    visitQueue_of_state fc2 {} _ _ _ hstS2
  have hcnr2 : ((visitSense fc2 (visitClassify fc1 (visitSense fc1 d).1)).1.isVisible
      && (visitSense fc2 (visitClassify fc1 (visitSense fc1 d).1)).1.geometryTested
      && !(visitSense fc2 (visitClassify fc1 (visitSense fc1 d).1)).1.hasGeometry) = false := by
    rw [hs2]; simp [senseNode, hte1]
  have hnr2 := visitClassify_no_reset fc2
    (visitSense fc2 (visitClassify fc1 (visitSense fc1 d).1)).1 hcnr2
  have hte2 : (visitClassify fc2
      (visitSense fc2 (visitClassify fc1 (visitSense fc1 d).1)).1).geometryTested
      = false := by
    rw [hnr2.1, hs2]; exact hte1
  have hsub2 : (shouldSubdivide (visitClassify fc2
        (visitSense fc2 (visitClassify fc1 (visitSense fc1 d).1)).1)
        (hasConfirmedGeometry (visitClassify fc2
          (visitSense fc2 (visitClassify fc1 (visitSense fc1 d).1)).1) none)
        (maxLevelOf fc2.cfg) fc2.cfg.lodDistanceFactor
      && OKids.noKids.isNull
      && (visitClassify fc2
        (visitSense fc2 (visitClassify fc1 (visitSense fc1 d).1)).1).geometryTested
      && (visitClassify fc2
        (visitSense fc2 (visitClassify fc1 (visitSense fc1 d).1)).1).hasGeometry) = false := by
    rw [hte2]; simp
  have h2 : updateOctreeStructureIterative fc2
      (OTree.node (visitClassify fc1 (visitSense fc1 d).1) OKids.noKids)
      ({} : SchedState)
      = (OTree.node (visitClassify fc2
          (visitSense fc2 (visitClassify fc1 (visitSense fc1 d).1)).1) OKids.noKids,
         ({} : SchedState)) := by
    rw [updateOctreeStructureIterative]
    exact visitTree_leaf fc2 none _ _ _ _ hocc2s hq2 hsub2
  rw [c2_compose fc1 fc2 d (visitClassify fc1 (visitSense fc1 d).1)
    ({} : SchedState) _ h1 h2]

theorem c2_aux_accept (fc1 fc2 : FrameCtx) (d : NodeData)
    (horc : fc1.orc = fc2.orc)
    (hfresh : d.lastOcclusionFrame ≠ fc1.frameId)
    (hframe : fc1.frameId ≠ fc2.frameId)
    (hocc : fc1.orc.occlO (centerOf d) d.size ≠ FrustumResult.OUTSIDE)
    (ht : d.geometryTested = false)
    (hstate : d.state = NodeState.EMPTY ∨ d.state = NodeState.SUBDIVIDED) :
    (updateOctreeStructureIterative fc2
      (updateOctreeStructureIterative fc1 (OTree.node d OKids.noKids) {}).1
      (updateOctreeStructureIterative fc1 (OTree.node d OKids.noKids) {}).2).2.enqueuedLog
    = [] := by
  have hs1 := visitSense_eq_of_fresh fc1 d hfresh
  have hocc1 : (visitSense fc1 d).1.lastOcclusionResult ≠ some FrustumResult.OUTSIDE := by
    rw [hs1]; simp [senseNode, hocc]
  have hv1 : (visitSense fc1 d).1.isVisible = true := by
    rw [hs1]; simp [senseNode, hocc]
  have ht1 : (visitSense fc1 d).1.geometryTested = false := by
    rw [hs1]; exact ht
  have hst1 : (visitSense fc1 d).1.state = NodeState.EMPTY ∨
      (visitSense fc1 d).1.state = NodeState.SUBDIVIDED := by
    rw [hs1]; exact hstate
  obtain ⟨r, hq1⟩ := visitQueue_untested_empty fc1 ({} : SchedState)
    (visitSense fc1 d).1 (visitSense fc1 d).2 hv1 ht1 rfl rfl hst1
  have hcnr1 : (({ (visitSense fc1 d).1 with state := NodeState.GENERATING } : NodeData).isVisible
      && ({ (visitSense fc1 d).1 with state := NodeState.GENERATING } : NodeData).geometryTested
      && !({ (visitSense fc1 d).1 with state := NodeState.GENERATING } : NodeData).hasGeometry) = false := by
    rw [hs1]; simp [senseNode, ht]
  have hnr1 := visitClassify_no_reset fc1
    { (visitSense fc1 d).1 with state := NodeState.GENERATING } hcnr1
  have hte1 : (visitClassify fc1
      { (visitSense fc1 d).1 with state := NodeState.GENERATING }).geometryTested = false := by
    rw [hnr1.1, hs1]; exact ht
  have hsub1 : (shouldSubdivide (visitClassify fc1
        { (visitSense fc1 d).1 with state := NodeState.GENERATING })
        (hasConfirmedGeometry (visitClassify fc1
          { (visitSense fc1 d).1 with state := NodeState.GENERATING }) none)
        (maxLevelOf fc1.cfg) fc1.cfg.lodDistanceFactor
      && OKids.noKids.isNull
      && (visitClassify fc1
        { (visitSense fc1 d).1 with state := NodeState.GENERATING }).geometryTested
      && (visitClassify fc1
        { (visitSense fc1 d).1 with state := NodeState.GENERATING }).hasGeometry) = false := by
    rw [hte1]; simp
  have h1 : updateOctreeStructureIterative fc1 (OTree.node d OKids.noKids) {}
      = (OTree.node (visitClassify fc1
          { (visitSense fc1 d).1 with state := NodeState.GENERATING }) OKids.noKids,
         ({ ({} : SchedState) with generationQueue := [r], pending := insert (nodeKey (visitSense fc1 d).1) ∅, enqueuedLog := ({} : SchedState).enqueuedLog ++ [r] } : SchedState)) := by
    rw [updateOctreeStructureIterative]
    exact visitTree_leaf fc1 none d _ _ _ hocc1 hq1 hsub1
  have hfr1 : (visitClassify fc1
      { (visitSense fc1 d).1 with state := NodeState.GENERATING }).lastOcclusionFrame
      = fc1.frameId := by
    rw [(visitClassify_occl fc1 _).2, hs1]
    rfl
  have hctr1 : centerOf (visitClassify fc1
      { (visitSense fc1 d).1 with state := NodeState.GENERATING }) = centerOf d := by
    rw [(visitClassify_fields fc1 _).2.2.2.2.1, hs1]
    rfl
  have hsz1 : (visitClassify fc1
      { (visitSense fc1 d).1 with state := NodeState.GENERATING }).size = d.size := by
    rw [(visitClassify_fields fc1 _).2.2.2.1, hs1]
    rfl
  have hlv1 : (visitClassify fc1
      { (visitSense fc1 d).1 with state := NodeState.GENERATING }).level = d.level := by
    rw [(visitClassify_fields fc1 _).2.2.1, hs1]
    rfl
  have hfresh2 : (visitClassify fc1
      { (visitSense fc1 d).1 with state := NodeState.GENERATING }).lastOcclusionFrame
      ≠ fc2.frameId := by
    rw [hfr1]; exact hframe
  have hs2 := visitSense_eq_of_fresh fc2 (visitClassify fc1
    { (visitSense fc1 d).1 with state := NodeState.GENERATING }) hfresh2
  have hocc2 : fc2.orc.occlO (centerOf (visitClassify fc1
      { (visitSense fc1 d).1 with state := NodeState.GENERATING }))
      (visitClassify fc1
        { (visitSense fc1 d).1 with state := NodeState.GENERATING }).size
      ≠ FrustumResult.OUTSIDE := by
    rw [hctr1, hsz1, ← horc]; exact hocc
  have hocc2s : (visitSense fc2 (visitClassify fc1
      { (visitSense fc1 d).1 with state := NodeState.GENERATING })).1.lastOcclusionResult
      ≠ some FrustumResult.OUTSIDE := by
    rw [hs2]; simpa [senseNode] using hocc2
  have hkey : nodeKey (visitClassify fc1
      { (visitSense fc1 d).1 with state := NodeState.GENERATING })
      = nodeKey (visitSense fc1 d).1 := by
    show (centerOf (visitClassify fc1
        { (visitSense fc1 d).1 with state := NodeState.GENERATING }),
      (visitClassify fc1
        { (visitSense fc1 d).1 with state := NodeState.GENERATING }).level)
      = (centerOf (visitSense fc1 d).1, (visitSense fc1 d).1.level)
    rw [(visitClassify_fields fc1 _).2.2.2.2.1, (visitClassify_fields fc1 _).2.2.1]
    rfl
  have hmem : nodeKey (visitSense fc2 (visitClassify fc1
      { (visitSense fc1 d).1 with state := NodeState.GENERATING })).1
      ∈ (insert (nodeKey (visitSense fc1 d).1) ∅ : Finset NodeKey) := by
    have hks : nodeKey (visitSense fc2 (visitClassify fc1
        { (visitSense fc1 d).1 with state := NodeState.GENERATING })).1
        = nodeKey (visitClassify fc1
          { (visitSense fc1 d).1 with state := NodeState.GENERATING }) := by
      rw [hs2]
      rfl
    rw [hks, hkey]
    exact Finset.mem_insert_self _ _
  have hq2 : visitQueue fc2 ({ ({} : SchedState) with generationQueue := [r], pending := insert (nodeKey (visitSense fc1 d).1) ∅, enqueuedLog := [] } : SchedState)
      (visitSense fc2 (visitClassify fc1
        { (visitSense fc1 d).1 with state := NodeState.GENERATING })).1
      (visitSense fc2 (visitClassify fc1
        { (visitSense fc1 d).1 with state := NodeState.GENERATING })).2 OKids.noKids
      = (({ ({} : SchedState) with generationQueue := [r], pending := insert (nodeKey (visitSense fc1 d).1) ∅, enqueuedLog := [] } : SchedState),
         (visitSense fc2 (visitClassify fc1
           { (visitSense fc1 d).1 with state := NodeState.GENERATING })).1) :=
    visitQueue_of_mem fc2 _ _ _ _ hmem
  have hcnr2 : ((visitSense fc2 (visitClassify fc1
      { (visitSense fc1 d).1 with state := NodeState.GENERATING })).1.isVisible
      && (visitSense fc2 (visitClassify fc1
        { (visitSense fc1 d).1 with state := NodeState.GENERATING })).1.geometryTested
      && !(visitSense fc2 (visitClassify fc1
        { (visitSense fc1 d).1 with state := NodeState.GENERATING })).1.hasGeometry) = false := by
    rw [hs2]; simp [senseNode, hte1]
  have hnr2 := visitClassify_no_reset fc2
    (visitSense fc2 (visitClassify fc1
      { (visitSense fc1 d).1 with state := NodeState.GENERATING })).1 hcnr2
  have hte2 : (visitClassify fc2 (visitSense fc2 (visitClassify fc1
      { (visitSense fc1 d).1 with state := NodeState.GENERATING })).1).geometryTested
      = false := by
    rw [hnr2.1, hs2]; exact hte1
  have hsub2 : (shouldSubdivide (visitClassify fc2 (visitSense fc2 (visitClassify fc1
        { (visitSense fc1 d).1 with state := NodeState.GENERATING })).1)
        (hasConfirmedGeometry (visitClassify fc2 (visitSense fc2 (visitClassify fc1
          { (visitSense fc1 d).1 with state := NodeState.GENERATING })).1) none)
        (maxLevelOf fc2.cfg) fc2.cfg.lodDistanceFactor
      && OKids.noKids.isNull
      && (visitClassify fc2 (visitSense fc2 (visitClassify fc1
        { (visitSense fc1 d).1 with state := NodeState.GENERATING })).1).geometryTested
      && (visitClassify fc2 (visitSense fc2 (visitClassify fc1
        { (visitSense fc1 d).1 with state := NodeState.GENERATING })).1).hasGeometry) = false := by
    rw [hte2]; simp
  have h2 : updateOctreeStructureIterative fc2
      (OTree.node (visitClassify fc1
        { (visitSense fc1 d).1 with state := NodeState.GENERATING }) OKids.noKids)
      ({ ({} : SchedState) with generationQueue := [r], pending := insert (nodeKey (visitSense fc1 d).1) ∅, enqueuedLog := ({} : SchedState).enqueuedLog ++ [r] } : SchedState)
      = (OTree.node (visitClassify fc2 (visitSense fc2 (visitClassify fc1
          { (visitSense fc1 d).1 with state := NodeState.GENERATING })).1) OKids.noKids,
         ({ ({} : SchedState) with generationQueue := [r], pending := insert (nodeKey (visitSense fc1 d).1) ∅, enqueuedLog := [] } : SchedState)) := by
    rw [updateOctreeStructureIterative]
    exact visitTree_leaf fc2 none _ _ _ _ hocc2s hq2 hsub2
  rw [c2_compose fc1 fc2 d (visitClassify fc1
    { (visitSense fc1 d).1 with state := NodeState.GENERATING }) _ _ h1 h2]

/-- The C2 configuration: 4 LOD levels, distance factor 4. -/
def c2cfg : ManagerConfig :=
  { numLODLevels := 4, lodDistanceFactor := 4, isoLevelBias := 0,
    fadeOutEnd := fun _ => none }

/-- The C2 oracles (one fixed camera position): every node is 500 units
away, nothing is frustum- or occlusion-culled, the density field is
uniformly zero. -/
def c2orc : FrameOracles :=
  { distO := fun _ => 500, occlO := fun _ _ => FrustumResult.INTERSECTS,
    densO := fun _ _ _ _ => 0 }

/-- First update call: frame 2. -/
def c2fc1 : FrameCtx := { cfg := c2cfg, orc := c2orc, frameId := 2, now := 1 }

/-- Second update call, same camera: frame 3. -/
def c2fc2 : FrameCtx := { cfg := c2cfg, orc := c2orc, frameId := 3, now := 2 }

/-- A visible node already tested and found empty (the re-test rule's
target): level 3, 500 units away — beyond its subdivide distance 128. -/
def c2node : NodeData :=
  { level := 3, centerX := 100, centerY := 0, centerZ := 0, size := 32,
    voxelGridSize := 32, state := NodeState.EMPTY,
    cullState := CullState.GEOMETRY_TESTED, geometryTested := true,
    hasGeometry := false, isVisible := true, distanceToCamera := some 500,
    lastOcclusionResult := some FrustumResult.INTERSECTS,
    lastOcclusionFrame := 1 }

theorem c2_concrete_calls :
    (updateOctreeStructureIterative c2fc1 (OTree.node c2node OKids.noKids) {}).2.enqueuedLog = [] ∧
    (updateOctreeStructureIterative c2fc2
      (updateOctreeStructureIterative c2fc1 (OTree.node c2node OKids.noKids) {}).1
      (updateOctreeStructureIterative c2fc1 (OTree.node c2node OKids.noKids) {}).2).2.enqueuedLog ≠ [] := by
  have hfresh1 : c2node.lastOcclusionFrame ≠ c2fc1.frameId := by
    norm_num [c2node, c2fc1]
  have hs1 := visitSense_eq_of_fresh c2fc1 c2node hfresh1
  have hocc1 : (visitSense c2fc1 c2node).1.lastOcclusionResult
      ≠ some FrustumResult.OUTSIDE := by
    rw [hs1]; simp [senseNode, c2fc1, c2orc]
  have htS : (visitSense c2fc1 c2node).1.geometryTested = true := by
    rw [hs1]
    rfl
  have hq1 : visitQueue c2fc1 ({} : SchedState) (visitSense c2fc1 c2node).1
      (visitSense c2fc1 c2node).2 OKids.noKids
      = (({} : SchedState), (visitSense c2fc1 c2node).1) :=
    visitQueue_of_tested c2fc1 {} _ _ _ htS
  have hrst : ((visitSense c2fc1 c2node).1.isVisible
      && (visitSense c2fc1 c2node).1.geometryTested
      && !(visitSense c2fc1 c2node).1.hasGeometry) = true := by
    rw [hs1]; simp [senseNode, c2node, c2fc1, c2orc]
  have hres := visitClassify_reset c2fc1 (visitSense c2fc1 c2node).1 hrst
  have hsub1 : (shouldSubdivide (visitClassify c2fc1 (visitSense c2fc1 c2node).1)
        (hasConfirmedGeometry (visitClassify c2fc1 (visitSense c2fc1 c2node).1) none)
        (maxLevelOf c2fc1.cfg) c2fc1.cfg.lodDistanceFactor
      && OKids.noKids.isNull
      && (visitClassify c2fc1 (visitSense c2fc1 c2node).1).geometryTested
      && (visitClassify c2fc1 (visitSense c2fc1 c2node).1).hasGeometry) = false := by
    rw [hres.1]; simp
  have h1 : updateOctreeStructureIterative c2fc1 (OTree.node c2node OKids.noKids) {}
      = (OTree.node (visitClassify c2fc1 (visitSense c2fc1 c2node).1) OKids.noKids,
         ({} : SchedState)) := by
    rw [updateOctreeStructureIterative]
    exact visitTree_leaf c2fc1 none c2node _ _ _ hocc1 hq1 hsub1
  refine ⟨by rw [h1], ?_⟩
  have hfr1 : (visitClassify c2fc1 (visitSense c2fc1 c2node).1).lastOcclusionFrame
      = c2fc1.frameId := by
    rw [(visitClassify_occl c2fc1 _).2, hs1]
    rfl
  have hctr1 : centerOf (visitClassify c2fc1 (visitSense c2fc1 c2node).1)
      = centerOf c2node := by
    rw [(visitClassify_fields c2fc1 _).2.2.2.2.1, hs1]
    rfl
  have hsz1 : (visitClassify c2fc1 (visitSense c2fc1 c2node).1).size = c2node.size := by
    rw [(visitClassify_fields c2fc1 _).2.2.2.1, hs1]
    rfl
  have hfresh2 : (visitClassify c2fc1 (visitSense c2fc1 c2node).1).lastOcclusionFrame
      ≠ c2fc2.frameId := by
    rw [hfr1]; norm_num [c2fc1, c2fc2]
  have hs2 := visitSense_eq_of_fresh c2fc2
    (visitClassify c2fc1 (visitSense c2fc1 c2node).1) hfresh2
  have hocc2 : c2fc2.orc.occlO (centerOf (visitClassify c2fc1 (visitSense c2fc1 c2node).1))
      (visitClassify c2fc1 (visitSense c2fc1 c2node).1).size ≠ FrustumResult.OUTSIDE := by
    rw [hctr1, hsz1]; simp [c2fc2, c2orc]
  have hocc2s : (visitSense c2fc2 (visitClassify c2fc1
      (visitSense c2fc1 c2node).1)).1.lastOcclusionResult
      ≠ some FrustumResult.OUTSIDE := by
    rw [hs2]; simpa [senseNode] using hocc2
  have hv2 : (visitSense c2fc2 (visitClassify c2fc1
      (visitSense c2fc1 c2node).1)).1.isVisible = true := by
    rw [hs2]; simpa [senseNode] using hocc2
  have ht2 : (visitSense c2fc2 (visitClassify c2fc1
      (visitSense c2fc1 c2node).1)).1.geometryTested = false := by
    rw [hs2]; exact hres.1
  have hst2 : (visitSense c2fc2 (visitClassify c2fc1
      (visitSense c2fc1 c2node).1)).1.state = NodeState.EMPTY ∨
      (visitSense c2fc2 (visitClassify c2fc1
        (visitSense c2fc1 c2node).1)).1.state = NodeState.SUBDIVIDED := by
    refine Or.inl ?_
    rw [hs2]
    show (visitClassify c2fc1 (visitSense c2fc1 c2node).1).state = NodeState.EMPTY
    rw [hres.2.2, hs1]
    rfl
  obtain ⟨r, hq2⟩ := visitQueue_untested_empty c2fc2 ({} : SchedState)
    (visitSense c2fc2 (visitClassify c2fc1 (visitSense c2fc1 c2node).1)).1
    (visitSense c2fc2 (visitClassify c2fc1 (visitSense c2fc1 c2node).1)).2
    hv2 ht2 rfl rfl hst2
  have hcnr2 : (({ (visitSense c2fc2 (visitClassify c2fc1
      (visitSense c2fc1 c2node).1)).1 with state := NodeState.GENERATING } : NodeData).isVisible
      && ({ (visitSense c2fc2 (visitClassify c2fc1
        (visitSense c2fc1 c2node).1)).1 with state := NodeState.GENERATING } : NodeData).geometryTested
      && !({ (visitSense c2fc2 (visitClassify c2fc1
        (visitSense c2fc1 c2node).1)).1 with state := NodeState.GENERATING } : NodeData).hasGeometry) = false := by
    rw [hs2]; simp [senseNode, hres.1]
  have hnr2 := visitClassify_no_reset c2fc2
    { (visitSense c2fc2 (visitClassify c2fc1
      (visitSense c2fc1 c2node).1)).1 with state := NodeState.GENERATING } hcnr2
  have hte2 : (visitClassify c2fc2 { (visitSense c2fc2 (visitClassify c2fc1
      (visitSense c2fc1 c2node).1)).1 with state := NodeState.GENERATING }).geometryTested
      = false := by
    rw [hnr2.1, hs2]; exact hres.1
  have hsub2 : (shouldSubdivide (visitClassify c2fc2 { (visitSense c2fc2 (visitClassify c2fc1
        (visitSense c2fc1 c2node).1)).1 with state := NodeState.GENERATING })
        (hasConfirmedGeometry (visitClassify c2fc2 { (visitSense c2fc2 (visitClassify c2fc1
          (visitSense c2fc1 c2node).1)).1 with state := NodeState.GENERATING }) none)
        (maxLevelOf c2fc2.cfg) c2fc2.cfg.lodDistanceFactor
      && OKids.noKids.isNull
      && (visitClassify c2fc2 { (visitSense c2fc2 (visitClassify c2fc1
        (visitSense c2fc1 c2node).1)).1 with state := NodeState.GENERATING }).geometryTested
      && (visitClassify c2fc2 { (visitSense c2fc2 (visitClassify c2fc1
        (visitSense c2fc1 c2node).1)).1 with state := NodeState.GENERATING }).hasGeometry) = false := by
    rw [hte2]; simp
  have h2 : updateOctreeStructureIterative c2fc2
      (OTree.node (visitClassify c2fc1 (visitSense c2fc1 c2node).1) OKids.noKids)
      ({} : SchedState)
      = (OTree.node (visitClassify c2fc2 { (visitSense c2fc2 (visitClassify c2fc1
          (visitSense c2fc1 c2node).1)).1 with state := NodeState.GENERATING }) OKids.noKids,
         ({ ({} : SchedState) with generationQueue := [r], pending := insert (nodeKey (visitSense c2fc2 (visitClassify c2fc1 (visitSense c2fc1 c2node).1)).1) ∅, enqueuedLog := ({} : SchedState).enqueuedLog ++ [r] } : SchedState)) := by
    rw [updateOctreeStructureIterative]
    exact visitTree_leaf c2fc2 none _ _ _ _ hocc2s hq2 hsub2
  rw [c2_compose c2fc1 c2fc2 c2node
    (visitClassify c2fc1 (visitSense c2fc1 c2node).1) ({} : SchedState) _ h1 h2]
  simp

/-- C2 (counterexample): both calls use the same camera (identical oracles
and configuration, only the frame id and timestamp differ), the first
`updateOctreeStructureIterative` call on the node enqueues nothing, yet the
second call enqueues a generation request: the re-test rule (spec 4.2, item
4) resets `geometryTested` of the visible tested-empty node during call 1,
so call 2's queueing block fires.  Calling update twice with an unchanged
camera is therefore not idempotent. -/
theorem C2_counterexample :
    c2fc1.cfg = c2fc2.cfg ∧ c2fc1.orc = c2fc2.orc ∧
    (updateOctreeStructureIterative c2fc1 (OTree.node c2node OKids.noKids) {}).2.enqueuedLog = [] ∧
    (updateOctreeStructureIterative c2fc2
      (updateOctreeStructureIterative c2fc1 (OTree.node c2node OKids.noKids) {}).1
      (updateOctreeStructureIterative c2fc1 (OTree.node c2node OKids.noKids) {}).2).2.enqueuedLog ≠ [] :=
  ⟨rfl, rfl, c2_concrete_calls.1, c2_concrete_calls.2⟩

/-- C2: amended idempotence.  For a single-node tree visited twice with the
same camera (equal oracles; fresh, distinct frame ids) while the node sits
at or beyond its subdivide distance, a second update call can only enqueue a
generation request if the node entered the first call geometry-tested with
no geometry and not occlusion-culled — i.e. exactly when the spec's re-test
rule (visible, tested, previously classified empty) fires.  In every other
case — culled, untested (whose first call either enqueues and leaves the
node pending and GENERATING, or is refused by the node's state), or tested
with geometry — the second call enqueues nothing. -/
theorem C2_idempotent_amended (fc1 fc2 : FrameCtx) (d : NodeData)
    (horc : fc1.orc = fc2.orc)
    (hfresh : d.lastOcclusionFrame ≠ fc1.frameId)
    (hframe : fc1.frameId ≠ fc2.frameId)
    (hfar1 : ¬ fc1.orc.distO (centerOf d) < d.size * fc1.cfg.lodDistanceFactor)
    (hfar2 : ¬ fc2.orc.distO (centerOf d) < d.size * fc2.cfg.lodDistanceFactor)
    (hlog2 : (updateOctreeStructureIterative fc2
        (updateOctreeStructureIterative fc1 (OTree.node d OKids.noKids) {}).1
        (updateOctreeStructureIterative fc1 (OTree.node d OKids.noKids) {}).2).2.enqueuedLog
      ≠ []) :
    d.geometryTested = true ∧ d.hasGeometry = false ∧
    fc1.orc.occlO (centerOf d) d.size ≠ FrustumResult.OUTSIDE := by
  by_cases hocc : fc1.orc.occlO (centerOf d) d.size = FrustumResult.OUTSIDE
  · exact absurd (c2_aux_culled fc1 fc2 d horc hfresh hframe hocc) hlog2
  · cases ht : d.geometryTested with
    | true =>
      cases hg : d.hasGeometry with
      | false => exact ⟨rfl, rfl, hocc⟩
      | true =>
        exact absurd (c2_aux_tested fc1 fc2 d horc hfresh hframe hfar1 hfar2 hocc ht hg) hlog2
    | false =>
      exfalso
      apply hlog2
      cases hds : d.state with
      | EMPTY => exact c2_aux_accept fc1 fc2 d horc hfresh hframe hocc ht (Or.inl hds)
      | SUBDIVIDED => exact c2_aux_accept fc1 fc2 d horc hfresh hframe hocc ht (Or.inr hds)
      | GENERATING => exact c2_aux_state fc1 fc2 d horc hfresh hframe hocc ht (Or.inl hds)
      | READY => exact c2_aux_state fc1 fc2 d horc hfresh hframe hocc ht (Or.inr (Or.inl hds))
      | CULLED => exact c2_aux_state fc1 fc2 d horc hfresh hframe hocc ht (Or.inr (Or.inr hds))

/-- C2 (witness): the amended theorem applied at the concrete instance
`c2node` under `c2fc1`/`c2fc2` (same camera, frames 2 and 3): all
hypotheses hold there, the second call does enqueue, and the conclusion
recovers that the node was tested-empty and visible. -/
theorem C2_idempotent_amended_witness :
    c2fc1.orc = c2fc2.orc ∧
    c2node.lastOcclusionFrame ≠ c2fc1.frameId ∧
    c2fc1.frameId ≠ c2fc2.frameId ∧
    ¬ c2fc1.orc.distO (centerOf c2node) < c2node.size * c2fc1.cfg.lodDistanceFactor ∧
    ¬ c2fc2.orc.distO (centerOf c2node) < c2node.size * c2fc2.cfg.lodDistanceFactor ∧
    (c2node.geometryTested = true ∧ c2node.hasGeometry = false ∧
      c2fc1.orc.occlO (centerOf c2node) c2node.size ≠ FrustumResult.OUTSIDE) :=
  ⟨rfl,
   by norm_num [c2node, c2fc1],
   by norm_num [c2fc1, c2fc2],
   by norm_num [c2fc1, c2orc, c2cfg, c2node],
   by norm_num [c2fc2, c2orc, c2cfg, c2node],
   C2_idempotent_amended c2fc1 c2fc2 c2node rfl
     (by norm_num [c2node, c2fc1])
     (by norm_num [c2fc1, c2fc2])
     (by norm_num [c2fc1, c2orc, c2cfg, c2node])
     (by norm_num [c2fc2, c2orc, c2cfg, c2node])
     c2_concrete_calls.2⟩

end OctreeChunkManager
